import Mathlib

/-!
Verification development for the musicblocks.js pitch engine prototypes
(`src/.prototype/scale.py`, `src/.prototype/musicutils.py`,
`src/.prototype/keysignature.py`).  Python strings are modelled as Lean
`String`, Python ints as `Int` (or `Nat` for counts), and Python list
indexing is modelled by `pyIdx` below, which reproduces the negative-index
wraparound of Python for indices in `[-len, len)`; outside that range
Python raises, and the claims checked here stay inside it.
-/

namespace MusicBlocks

/-- Python list indexing: nonnegative indices from the front, negative
indices from the back (Python raises outside `[-len, len)`; there the
model returns the default). -/
def pyIdx (l : List String) (i : Int) : String :=
  if i < 0 then l.getD (l.length - (-i).toNat) "" else l.getD i.toNat ""

/-- Generic note name, `"n%d" % i` in the source. -/
def genericNoteName (i : Nat) : String := "n" ++ toString i

/-- The list `["n0", "n1", ..., "n(k-1)"]` built by the generic-name loops. -/
def makeNoteNames (k : Nat) : List String := (List.range k).map genericNoteName

namespace ScalePy

/-- State produced by `scale.py` `Scale.__init__`. -/
structure ScaleData where
  number_of_semitones : Nat
  note_names : List String
  scale : List String
  octave_deltas : List Int
deriving Repr, DecidableEq

/-- The body of the construction loop of `Scale.__init__`
(`scale.py` lines 64-74): advance the index by each half step, wrap
(with an octave bump) when it reaches the number of semitones, and
record the resulting generic name and octave delta. -/
def buildLoop (N : Int) (names : List String) :
    List Int → Int → Int → List String × List Int
  | [], _, _ => ([], [])
  | step :: rest, i, octave =>
    let i1 := i + step
    let (i2, oct2) := if ¬ i1 < N then (i1 - N, octave + 1) else (i1, octave)
    let (s, d) := buildLoop N names rest i2 oct2
    (pyIdx names i2 :: s, oct2 :: d)

/-- `scale.py` `Scale.__init__`: `none` for `half_steps_pattern` selects the
default (a fresh all-ones pattern sized by `number_of_semitones`); otherwise
the number of semitones is the sum of the supplied pattern. -/
def init (half_steps_pattern : Option (List Int)) (starting_index : Int)
    (number_of_semitones : Nat) : ScaleData :=
  let (N, pattern) :=
    match half_steps_pattern with
    | none => ((number_of_semitones : Int),
        (List.replicate number_of_semitones (1 : Int)))
    | some p => (p.foldl (· + ·) 0, p)
  let note_names := makeNoteNames N.toNat
  let i0 := starting_index.emod (note_names.length : Int)
  let (s, d) := buildLoop N note_names pattern i0 0
  { number_of_semitones := N.toNat
    note_names := note_names
    scale := pyIdx note_names i0 :: s
    octave_deltas := 0 :: d }

end ScalePy

namespace KSScale

/-- State produced by the `Scale` class of `keysignature.py`, which is the
same algorithm as `scale.py` except that the default for
`half_steps_pattern` is a *shared mutable* list (`=[]` in the signature),
mutated in place by `half_steps_pattern.append(1)`.  The construction is
therefore modelled as a state transformer on the default list. -/
def init (defaultArg : List Int) (half_steps_pattern : Option (List Int))
    (starting_index : Int) (number_of_semitones : Nat) :
    ScalePy.ScaleData × List Int :=
  match half_steps_pattern with
  | some p =>
    let N := p.foldl (· + ·) 0
    let note_names := makeNoteNames N.toNat
    let i0 := starting_index.emod (note_names.length : Int)
    let (s, d) := ScalePy.buildLoop N note_names p i0 0
    ({ number_of_semitones := N.toNat
       note_names := note_names
       scale := pyIdx note_names i0 :: s
       octave_deltas := 0 :: d }, defaultArg)
  | none =>
    if defaultArg.length = 0 then
      -- `len(half_steps_pattern) == 0`: the default list is extended in
      -- place with `number_of_semitones` ones and stays mutated.
      let newDefault := defaultArg ++ List.replicate number_of_semitones (1 : Int)
      let N := (number_of_semitones : Int)
      let note_names := makeNoteNames N.toNat
      let i0 := starting_index.emod (note_names.length : Int)
      let (s, d) := ScalePy.buildLoop N note_names newDefault i0 0
      ({ number_of_semitones := N.toNat
         note_names := note_names
         scale := pyIdx note_names i0 :: s
         octave_deltas := 0 :: d }, newDefault)
    else
      -- The (already mutated) default is summed as if it were a caller
      -- supplied pattern; the `number_of_semitones` argument is ignored.
      let N := defaultArg.foldl (· + ·) 0
      let note_names := makeNoteNames N.toNat
      let i0 := starting_index.emod (note_names.length : Int)
      let (s, d) := ScalePy.buildLoop N note_names defaultArg i0 0
      ({ number_of_semitones := N.toNat
         note_names := note_names
         scale := pyIdx note_names i0 :: s
         octave_deltas := 0 :: d }, defaultArg)

end KSScale

/-! Shared string helpers modelling Python primitives. -/

/-- Helper for `pyIn`: check `sub` against every suffix. -/
def isInfixAux (sub : List Char) : List Char → Bool
  | [] => sub.isEmpty
  | c :: rest => sub.isPrefixOf (c :: rest) || isInfixAux sub rest

/-- Python substring containment `sub in s`. -/
def pyIn (sub s : String) : Bool := isInfixAux sub.data s.data

/-- Python `s[0]` as a one-character string (`s[0]` raises on an empty
string; the claims never reach that case). -/
def pyHead (s : String) : String := String.mk (s.data.take 1)

/-- Python `list.index`, returning `none` where Python raises `ValueError`. -/
def listIndex (l : List String) (x : String) : Option Nat :=
  l.findIdx? (· == x)

/-- Dictionary lookup `d[k]` over an association list. -/
def lookup1 {α : Type} (m : List (String × α)) (k : String) : Option α :=
  (m.find? (fun p => p.fst == k)).map Prod.snd

/-- Python `k in d` for an association-list dictionary. -/
def hasKey {α : Type} (m : List (String × α)) (k : String) : Bool :=
  (lookup1 m k).isSome

/-- Python `str.lower()`, implemented by structural recursion over the
character list so that it reduces definitionally. -/
def pyLower (s : String) : String := String.mk (s.data.map Char.toLower)

/-- Replacement of the leftmost occurrences, one list step per fuel unit;
`fuel = s.length` always suffices for a nonempty needle. -/
def replaceAux (sub repl : List Char) : Nat → List Char → List Char
  | 0, s => s
  | fuel + 1, s =>
    match s with
    | [] => []
    | c :: rest =>
      if sub.isPrefixOf s then repl ++ replaceAux sub repl fuel (s.drop sub.length)
      else c :: replaceAux sub repl fuel rest

/-- Python `str.replace(sub, repl)` for a nonempty `sub` (every use below
replaces a single accidental glyph). -/
def pyReplace (s sub repl : String) : String :=
  String.mk (replaceAux sub.data repl.data s.data.length s.data)

/-- Python `s[n:]`. -/
def pyDrop (s : String) (n : Nat) : String := String.mk (s.data.drop n)

/-- Python `s[:-n]`. -/
def pyDropRight (s : String) (n : Nat) : String :=
  String.mk (s.data.take (s.data.length - n))

/-- Python `s.endswith(suffix)`. -/
def pyEndsWith (s suffix : String) : Bool :=
  suffix.data.reverse.isPrefixOf s.data.reverse

/-- Python `len(s)` (same as `String.length`, kept for symmetry). -/
def pyLen (s : String) : Nat := s.data.length

/-- Python `s.isdecimal()` restricted to ASCII digits. -/
def pyIsDecimal (s : String) : Bool :=
  s.data ≠ [] ∧ s.data.all Char.isDigit

/-- Python `int(s)` on a decimal string. -/
def pyToNat (s : String) : Nat :=
  s.data.foldl (fun acc c => acc * 10 + (c.toNat - 48)) 0

/-- Unicode accidental glyphs of `musicutils.py`. -/
def SHARP : String := "♯"

def FLAT : String := "♭"

def NATURAL : String := "♮"

def DOUBLESHARP : String := "𝄪"

def DOUBLEFLAT : String := "𝄫"

/-- `musicutils.normalize_pitch`: lowercase the name and map the Unicode
accidental glyphs to their ASCII forms. -/
def normalize_pitch (pitch : String) : String :=
  pyReplace (pyReplace (pyReplace (pyReplace (pyReplace (pyLower pitch)
    SHARP "#") DOUBLESHARP "x") FLAT "b") DOUBLEFLAT "bb") NATURAL ""

/-- Modelled from the spec: `strip_accidental` is imported by
`keysignature.py` from `musicutils` but its definition is not among the
source files here; only its unit tests and callers are.  The spec fixes the
accidental suffixes as `{none, #, b, x, bb}` with semitone offsets
`{0, +1, -1, +2, -2}`, and the unit tests pin
`strip_accidental "c#" = ("c", 1)`, `strip_accidental "cbb" = ("c", -2)`,
`strip_accidental "cb" = ("c", -1)` and `strip_accidental "b" = ("b", 0)`
(a bare letter keeps its accidental-free reading). -/
def strip_accidental (pitch : String) : String × Int :=
  if pyLen pitch > 2 ∧ pyEndsWith pitch "bb" then (pyDropRight pitch 2, -2)
  else if pyEndsWith pitch "#" then (pyDropRight pitch 1, 1)
  else if pyEndsWith pitch "x" then (pyDropRight pitch 1, 2)
  else if pyLen pitch > 1 ∧ pyEndsWith pitch "b" then (pyDropRight pitch 1, -1)
  else (pitch, 0)

/-- The `MUSICAL_MODES` catalog (identical in `musicutils.py` and
`keysignature.py`). -/
def MUSICAL_MODES : List (String × List Int) := [
  ("chromatic", [1, 1, 1, 1, 1, 1, 1, 1, 1, 1, 1, 1]),
  ("algerian", [2, 1, 2, 1, 1, 1, 3, 1]),
  ("diminished", [2, 1, 2, 1, 2, 1, 2, 1]),
  ("spanish", [1, 2, 1, 1, 1, 2, 2, 2]),
  ("octatonic", [1, 2, 1, 2, 1, 2, 1, 2]),
  ("bebop", [1, 1, 1, 2, 2, 1, 2, 2]),
  ("major", [2, 2, 1, 2, 2, 2, 1]),
  ("harmonic major", [2, 2, 1, 2, 1, 3, 1]),
  ("minor", [2, 1, 2, 2, 1, 2, 2]),
  ("natural minor", [2, 1, 2, 2, 1, 2, 2]),
  ("harmonic minor", [2, 1, 2, 2, 1, 3, 1]),
  ("melodic minor", [2, 1, 2, 2, 2, 2, 1]),
  ("ionian", [2, 2, 1, 2, 2, 2, 1]),
  ("dorian", [2, 1, 2, 2, 2, 1, 2]),
  ("phrygian", [1, 2, 2, 2, 1, 2, 2]),
  ("lydian", [2, 2, 2, 1, 2, 2, 1]),
  ("mixolydian", [2, 2, 1, 2, 2, 1, 2]),
  ("aeolian", [2, 1, 2, 2, 1, 2, 2]),
  ("locrian", [1, 2, 2, 1, 2, 2, 2]),
  ("jazz minor", [2, 1, 2, 2, 2, 2, 1]),
  ("arabic", [2, 2, 1, 1, 2, 2, 2]),
  ("byzantine", [1, 3, 1, 2, 1, 3, 1]),
  ("enigmatic", [1, 3, 2, 2, 2, 1, 1]),
  ("ethiopian", [2, 1, 2, 2, 1, 2, 2]),
  ("geez", [2, 1, 2, 2, 1, 2, 2]),
  ("hindu", [2, 2, 1, 2, 1, 2, 2]),
  ("hungarian", [2, 1, 3, 1, 1, 3, 1]),
  ("maqam", [1, 3, 1, 2, 1, 3, 1]),
  ("romanian minor", [2, 1, 3, 1, 2, 1, 2]),
  ("spanish gypsy", [1, 3, 1, 2, 1, 2, 2]),
  ("minor blues", [3, 2, 1, 1, 3, 2]),
  ("major blues", [2, 1, 1, 3, 2, 2]),
  ("whole tone", [2, 2, 2, 2, 2, 2]),
  ("major pentatonic", [2, 2, 3, 2, 3]),
  ("minor pentatonic", [3, 2, 2, 3, 2]),
  ("chinese", [4, 2, 1, 4, 1]),
  ("egyptian", [2, 3, 2, 3, 2]),
  ("hirajoshi", [1, 4, 1, 4, 2]),
  ("in", [1, 4, 2, 1, 4]),
  ("minyo", [3, 2, 2, 3, 2]),
  ("fibonacci", [1, 1, 2, 3, 5])]

/-- `PITCH_LETTERS` (identical in both files). -/
def PITCH_LETTERS : List String := ["c", "d", "e", "f", "g", "a", "b"]

/-- `NOTES_SHARP` (identical in both files). -/
def NOTES_SHARP : List String :=
  ["c", "c#", "d", "d#", "e", "f", "f#", "g", "g#", "a", "a#", "b"]

/-- `NOTES_FLAT` (identical in both files). -/
def NOTES_FLAT : List String :=
  ["c", "db", "d", "eb", "e", "f", "gb", "g", "ab", "a", "bb", "b"]

/-- Python `l[i]` for a nonnegative index (the guarded uses below never
reach an out-of-range index except where `Option` is threaded instead). -/
def pyGet (l : List String) (i : Nat) : String := l.getD i ""

/-- Loop `while i < 0: i += N; delta -= 1` used by both KeySignature
versions, unrolled on a fuel argument so that it reduces definitionally;
each pass adds `N ≥ 1`, so `(-i).toNat + 1` units of fuel always reach
the exit condition.  Python loops forever when `N ≤ 0`; the model
returns its arguments unchanged there, and every use in the claims has
`0 < N`. -/
def wrapNegAux (N : Int) : Nat → Int → Int → Int × Int
  | 0, i, d => (i, d)
  | fuel + 1, i, d =>
    if 0 < N ∧ i < 0 then wrapNegAux N fuel (i + N) (d - 1) else (i, d)

/-- Entry point for the `while i < 0` loop. -/
def wrapNeg (N i d : Int) : Int × Int := wrapNegAux N ((-i).toNat + 1) i d

/-- Loop `while i > N - 1: i -= N; delta += 1` (same treatment as
`wrapNegAux`). -/
def wrapPosAux (N : Int) : Nat → Int → Int → Int × Int
  | 0, i, d => (i, d)
  | fuel + 1, i, d =>
    if 0 < N ∧ i > N - 1 then wrapPosAux N fuel (i - N) (d + 1) else (i, d)

/-- Entry point for the `while i > N - 1` loop. -/
def wrapPos (N i d : Int) : Int × Int := wrapPosAux N (i.toNat + 1) i d

/-- Both wrap loops in sequence, as they appear in `semitone_transform`
and `_map_to_semitone_range`. -/
def pyWrap (N i d : Int) : Int × Int :=
  let (i1, d1) := wrapNeg N i d
  wrapPos N i1 d1

namespace MU

/-- `musicutils.py` `PREFER_SHARPS`, including the stray element produced
by the triple-quoted block inside the list literal. -/
def PREFER_SHARPS : List String :=
  ["g major", "d major", "a major", "e major", "b major", "e minor",
   "b minor",
   "\n        \"f# major\",\n        \"e# major\",\n        \"e# minor\",\n        \"c# major\",\n        \"d# major\",\n        \"f# minor\",\n        \"c# minor\",\n        \"g# minor\",\n        \"d# minor\",\n        "]

/-- `musicutils.py` `EQUIVALENT_FLATS`. -/
def EQUIVALENT_FLATS : List (String × String) :=
  [("c#", "db"), ("d#", "eb"), ("f#", "gb"), ("g#", "ab"), ("a#", "bb")]

/-- `musicutils.py` `EQUIVALENT_SHARPS`. -/
def EQUIVALENT_SHARPS : List (String × String) :=
  [("db", "c#"), ("eb", "d#"), ("gb", "f#"), ("ab", "g#"), ("bb", "a#")]

/-- `musicutils.py` `EQUIVALENTS`. -/
def EQUIVALENTS : List (String × List String) := [
  ("ax", ["b", "cb"]), ("a#", ["bb"]), ("a", ["bbb", "gx"]),
  ("ab", ["g#"]), ("abb", ["g", "fx"]), ("bx", ["c#"]),
  ("b#", ["c", "dbb"]), ("b", ["b", "cb", "ax"]), ("bb", ["a#"]),
  ("bbb", ["a", "gx"]), ("cx", ["d"]), ("c#", ["db"]),
  ("c", ["c", "dbb", "b#"]), ("cb", ["b"]), ("cbb", ["bb", "a#"]),
  ("dx", ["e", "fb"]), ("d#", ["eb", "fbb"]), ("d", ["ebb", "cx"]),
  ("db", ["c#", "bx"]), ("dbb", ["c", "b#"]), ("ex", ["f#", "gb"]),
  ("e#", ["f", "gbb"]), ("e", ["e", "fb", "dx"]), ("eb", ["d#", "fbb"]),
  ("ebb", ["d", "cx"]), ("fx", ["g", "abb"]), ("f#", ["gb", "ex"]),
  ("f", ["f", "e#", "gbb"]), ("fb", ["e", "dx"]), ("fbb", ["eb", "d#"]),
  ("gx", ["a", "bbb"]), ("g#", ["ab"]), ("g", ["abb", "fx"]),
  ("gb", ["f#", "ex"]), ("gbb", ["f", "e#"])]

/-- `musicutils.py` `CONVERT_DOWN`. -/
def CONVERT_DOWN : List (String × String) := [
  ("abb", "g"), ("ab", "g#"), ("a", "gx"), ("bb", "a#"), ("bbb", "a"),
  ("b", "ax"), ("c", "b#"), ("cb", "b"), ("c#", "bx"), ("d", "cx"),
  ("dbb", "c"), ("db", "c#"), ("e", "dx"), ("ebb", "d"), ("eb", "d#"),
  ("fb", "e"), ("f", "e#"), ("f#", "ex"), ("g", "fx"), ("gb", "f#"),
  ("gbb", "f")]

/-- `musicutils.py` `CONVERT_UP`. -/
def CONVERT_UP : List (String × String) := [
  ("a#", "bb"), ("a", "bbb"), ("ab", "g#"), ("bb", "a#"), ("bbb", "a"),
  ("b#", "c"), ("b", "cb"), ("c#", "db"), ("c", "dbb"), ("db", "c#"),
  ("d#", "eb"), ("d", "ebb"), ("eb", "d#"), ("e#", "f"), ("e", "fb"),
  ("f#", "gb"), ("f", "gbb"), ("g#", "ab"), ("g", "abb"), ("gb", "f#")]

/-- State assembled by `musicutils.py` `KeySignature.__init__`. -/
structure State where
  number_of_semitones : Nat
  mode : String
  half_steps : List Int
  key : String
  key_signature : String
  note_names : List String
  scale : List String
deriving Repr, DecidableEq

/-- `self.scale[:-1]` (`get_scale`). -/
def get_scale (st : State) : List String := st.scale.dropLast

/-- `len(self.scale) - 1` (`get_mode_length`). -/
def get_mode_length (st : State) : Nat := st.scale.length - 1

/-- Custom-mode validation block of `KeySignature.__init__`
(`musicutils.py` lines 842-864, 12-semitone branch): clamp the shape to
the chromatic catalog entry, force each entry to at least 1, and adjust
(or drop) the final entry when the total misses 12. -/
def validateCustomMode (m : List Int) : List Int :=
  let chromatic := (lookup1 MUSICAL_MODES "chromatic").getD []
  let m1 := if m.length > 12 then chromatic
    else if m.length < 1 then chromatic
    else m
  let m2 := m1.map (fun s => if s < 1 then (1 : Int) else s)
  let n := m2.foldl (· + ·) 0
  if n < 12 then m2.dropLast ++ [m2.getLast! + (12 - n)]
  else if n > 12 then
    let lastEntry := m2.getLast! - (n - 12)
    if lastEntry < 1 then m2.dropLast else m2.dropLast ++ [lastEntry]
  else m2

/-- Custom-mode validation block of the non-12-semitone branch
(`musicutils.py` lines 896-920). -/
def validateCustomModeN (N : Nat) (m : List Int) : List Int :=
  let m1 := if m.length > N then m.take N
    else if m.length < 1 then [(N : Int)]
    else m
  let m2 := m1.map (fun s => if s < 1 then (1 : Int) else s)
  let n := m2.foldl (· + ·) 0
  if n < (N : Int) then m2.dropLast ++ [m2.getLast! + ((N : Int) - n)]
  else if n > (N : Int) then
    let lastEntry := m2.getLast! - (n - (N : Int))
    if lastEntry < 1 then m2.dropLast else m2.dropLast ++ [lastEntry]
  else m2

/-- Scale-accumulation loop of `_build_scale`:
`for j: i += half_steps[j]; scale.append(this_scale[i % N])`. -/
def rawLoop (tbl : List String) (N : Int) : List Int → Int → List String
  | [], _ => []
  | step :: rest, i =>
    let i1 := i + step
    pyGet tbl (i1.emod N).toNat :: rawLoop tbl N rest i1

/-- `self.scale[-1] = self.scale[0]`. -/
def setLast (l : List String) : List String :=
  l.set (l.length - 1) (l.headD "")

/-- Preferred-accidental conversion pass of `_build_scale`
(map flats to their equivalent sharps). -/
def sharpMap (scale : List String) : List String :=
  scale.map (fun s =>
    if pyIn "b" s ∧ hasKey EQUIVALENT_SHARPS s then
      (lookup1 EQUIVALENT_SHARPS s).getD ""
    else s)

/-- One step of the Latin no-skipped-letters pass (`_build_scale`,
`musicutils.py` lines 1403-1411); `none` models the `ValueError` that
`PITCH_LETTERS.index` raises when a first character is not a letter. -/
def latinStep (scale : List String) (i : Nat) : Option (List String) := do
  let i1 ← listIndex PITCH_LETTERS (pyHead (pyGet scale i))
  let i2 ← listIndex PITCH_LETTERS (pyHead (pyGet scale (i + 1)))
  let i2 := if i2 < i1 then i2 + 7 else i2
  if i2 - i1 > 1 then
    if hasKey CONVERT_DOWN (pyGet scale (i + 1)) then
      return scale.set (i + 1) ((lookup1 CONVERT_DOWN (pyGet scale (i + 1))).getD "")
    else return scale
  else return scale

/-- One step of the no-repeated-letters pass (`_build_scale`,
`musicutils.py` lines 1414-1430).  The loop variable `new_current_note`
persists across iterations in Python and is unbound before its first
assignment; the `Option String` component models it, with `none` for the
`UnboundLocalError` raised when it is read while unbound. -/
def repeatStep (acc : List String × Option String) (i : Nat) :
    Option (List String × Option String) :=
  let (scale, ncn) := acc
  if i = 0 ∧ pyHead (pyGet scale i) = pyHead (pyGet scale (i + 1)) then
    if hasKey CONVERT_UP (pyGet scale (i + 1)) then
      some (scale.set (i + 1) ((lookup1 CONVERT_UP (pyGet scale (i + 1))).getD ""), ncn)
    else some (scale, ncn)
  else if i ≠ 0 ∧ pyHead (pyGet scale i) = pyHead (pyGet scale (i + 1)) then
    let ncn1 := if hasKey CONVERT_DOWN (pyGet scale i) then
        some ((lookup1 CONVERT_DOWN (pyGet scale i)).getD "")
      else ncn
    match ncn1 with
    | none => none
    | some nc =>
      if pyHead nc ≠ pyHead (pyGet scale (i - 1)) then
        some (scale.set i nc, some nc)
      else if hasKey CONVERT_UP (pyGet scale (i + 1)) then
        some (scale.set (i + 1) ((lookup1 CONVERT_UP (pyGet scale (i + 1))).getD ""), some nc)
      else some (scale, some nc)
  else some (scale, ncn)

/-- `musicutils.py` `KeySignature._build_scale` (lines 1331-1441) up to
but excluding the final `self.scale[-1] = self.scale[0]` assignment that
closes both branches; `build_scale` below applies that assignment.  The
result is `none` exactly where the Python code raises (or, for a
zero-semitone temperament with a nonempty pattern, loops on `% 0`). -/
def build_scale_pre (number_of_semitones : Nat) (key key_signature : String)
    (half_steps : List Int) (note_names : List String) :
    Option (List String) := do
  if number_of_semitones ≠ 12 then
    if number_of_semitones = 0 ∧ half_steps ≠ [] then none
    else
      let i : Int := ((listIndex note_names key).getD 0 : Nat)
      let scale := key :: rawLoop note_names (number_of_semitones : Int) half_steps i
      return scale
  else
    let (this_scale, i0) :=
      if PREFER_SHARPS.contains key_signature then
        (NOTES_SHARP,
          if NOTES_SHARP.contains key then (listIndex NOTES_SHARP key).getD 0
          else if hasKey EQUIVALENT_SHARPS key then
            (listIndex NOTES_SHARP ((lookup1 EQUIVALENT_SHARPS key).getD "")).getD 0
          else 0)
      else
        (NOTES_FLAT,
          if NOTES_FLAT.contains key then (listIndex NOTES_FLAT key).getD 0
          else if hasKey EQUIVALENT_FLATS key then
            (listIndex NOTES_FLAT ((lookup1 EQUIVALENT_FLATS key).getD "")).getD 0
          else 0)
    let i0 := if key == "e#" then (listIndex this_scale "f").getD 0
      else if key == "b#" then (listIndex this_scale "c").getD 0
      else if key == "cb" then (listIndex this_scale "b").getD 0
      else if key == "fb" then (listIndex this_scale "e").getD 0
      else i0
    let scale := key :: rawLoop this_scale 12 half_steps (i0 : Int)
    if scale.length < 9 then
      let scale := if ¬ PREFER_SHARPS.contains key_signature ∧ pyIn "#" key then
          sharpMap scale
        else scale
      let scale ← if scale.length = 8 then
          (List.range (scale.length - 1)).foldlM latinStep scale
        else pure scale
      let (scale, _) ← (List.range (scale.length - 1)).foldlM repeatStep
        (scale, (none : Option String))
      return scale
    else
      let scale := if pyIn "#" key then sharpMap scale else scale
      return scale

/-- `musicutils.py` `KeySignature._build_scale`: both source branches end
with `self.scale[-1] = self.scale[0]` (lines 1360 and 1441), applied here
to the branch result. -/
def build_scale (number_of_semitones : Nat) (key key_signature : String)
    (half_steps : List Int) (note_names : List String) :
    Option (List String) :=
  (build_scale_pre number_of_semitones key key_signature half_steps
    note_names).map setLast

/-- Mode argument of `KeySignature.__init__` (a catalog name or a custom
half-step list). -/
inductive ModeArg where
  | str (s : String)
  | ints (l : List Int)

/-- `musicutils.py` `KeySignature.__init__`.  `none` models the Python
exception paths (in particular a string mode absent from the catalog
leaves `self.half_steps` unassigned, so `_build_scale` raises). -/
def init (modeArg : ModeArg) (keyArg : String) (number_of_semitones : Nat) :
    Option State := do
  let note_names := makeNoteNames number_of_semitones
  if number_of_semitones = 12 then
    let (mode, half_steps) ←
      match modeArg with
      | .str s =>
        match lookup1 MUSICAL_MODES s with
        | some hs => some (s, hs)
        | none => none
      | .ints l => some ("custom", validateCustomMode l)
    let key := normalize_pitch keyArg
    let key :=
      if NOTES_SHARP.contains key ∨ NOTES_FLAT.contains key then key
      else if ["cb", "fb", "e#", "b#"].contains key then key
      else if pyIn "x" key ∧ hasKey EQUIVALENTS key then
        pyGet ((lookup1 EQUIVALENTS key).getD []) 0
      else if pyIn "bb" key ∧ hasKey EQUIVALENTS key then
        pyGet ((lookup1 EQUIVALENTS key).getD []) 0
      else if pyIn "n" key ∧ note_names.contains key then
        pyGet NOTES_SHARP ((listIndex note_names key).getD 0)
      else "c"
    let key_signature := key ++ " " ++ mode
    let scale ← build_scale number_of_semitones key key_signature half_steps note_names
    return { number_of_semitones := number_of_semitones, mode := mode,
             half_steps := half_steps, key := key,
             key_signature := key_signature, note_names := note_names,
             scale := scale }
  else
    let key := normalize_pitch keyArg
    let key := if pyHead key ≠ "n" then "n0" else key
    let mode := "custom"
    let half_steps :=
      match modeArg with
      | .ints l => validateCustomModeN number_of_semitones l
      | .str _ => List.replicate number_of_semitones (1 : Int)
    let key_signature := key ++ " " ++ mode
    let scale ← build_scale number_of_semitones key key_signature half_steps note_names
    return { number_of_semitones := number_of_semitones, mode := mode,
             half_steps := half_steps, key := key,
             key_signature := key_signature, note_names := note_names,
             scale := scale }

/-- `musicutils.py` `KeySignature.semitone_transform` (lines 1044-1120).
The function is total on strings: every branch returns a
`(pitch, delta_octave, error_code)` triple. -/
def semitone_transform (st : State) (starting_pitchArg : String)
    (number_of_half_steps : Int) : String × Int × Int :=
  let sp := normalize_pitch starting_pitchArg
  if st.number_of_semitones = 12 then
    if NOTES_SHARP.contains sp then
      let i := ((listIndex NOTES_SHARP sp).getD 0 : Int) + number_of_half_steps
      let (i, d) := pyWrap (st.number_of_semitones : Int) i 0
      (pyGet NOTES_SHARP i.toNat, d, 0)
    else if NOTES_FLAT.contains sp then
      let i := ((listIndex NOTES_FLAT sp).getD 0 : Int) + number_of_half_steps
      let (i, d) := pyWrap (st.number_of_semitones : Int) i 0
      (pyGet NOTES_FLAT i.toNat, d, 0)
    else if st.note_names.contains sp then
      let i := ((listIndex st.note_names sp).getD 0 : Int) + number_of_half_steps
      let (i, d) := pyWrap (st.number_of_semitones : Int) i 0
      (pyGet st.note_names i.toNat, d, 0)
    else (sp, 0, -1)
  else
    if st.note_names.contains sp then
      let i := ((listIndex st.note_names sp).getD 0 : Int) + number_of_half_steps
      let (i, d) := pyWrap (st.number_of_semitones : Int) i 0
      (pyGet st.note_names i.toNat, d, 0)
    else (sp, 0, -1)

/-- First chromatic position of any equivalent spelling, `-1` when none
is found (the `for k in EQUIVALENTS[...]` loops of `closest_note`). -/
def chromPos (eqs : List String) : Int :=
  match eqs with
  | [] => -1
  | k :: rest =>
    if NOTES_SHARP.contains k then ((listIndex NOTES_SHARP k).getD 0 : Int)
    else if NOTES_FLAT.contains k then ((listIndex NOTES_FLAT k).getD 0 : Int)
    else chromPos rest

/-- Chromatic position of a pitch name as computed inside
`closest_note`; `none` models the `KeyError` raised by
`self.EQUIVALENTS[...]` when the name is not a key of the table. -/
def chromPosOf (s : String) : Option Int :=
  if NOTES_SHARP.contains s then some ((listIndex NOTES_SHARP s).getD 0 : Int)
  else if NOTES_FLAT.contains s then some ((listIndex NOTES_FLAT s).getD 0 : Int)
  else if hasKey EQUIVALENTS s then some (chromPos ((lookup1 EQUIVALENTS s).getD []))
  else none

/-- Main candidate loop of the 12-semitone branch of `closest_note`
(`musicutils.py` lines 1301-1329). -/
def closestLoop (st : State) (i2 : Int) :
    List Nat → String × Int × Int → Option (String × Int × Int × Int)
  | [], (c, ci, cd) => some (c, ci, cd, 0)
  | i :: rest, (c, ci, cd) =>
    let this_note := pyGet st.scale i
    match chromPosOf this_note with
    | none => none
    | some i1 =>
      if i1 = -1 then some (c, ci, cd, -1)
      else
        let (c, ci, cd) := if (i2 - i1).natAbs < cd.natAbs then
            (this_note, (i : Int), i2 - i1)
          else (c, ci, cd)
        let (c, ci, cd) :=
          if (i2 + st.number_of_semitones - i1).natAbs < cd.natAbs then
            (this_note, (i : Int), i2 + (st.number_of_semitones : Int) - i1)
          else (c, ci, cd)
        closestLoop st i2 rest (c, ci, cd)

/-- Upward search of the non-12-semitone branch of `closest_note`
(`musicutils.py` lines 1237-1246): the counter advances only on
non-matching candidates above the target. -/
def upSearch (note_names scale : List String) (mL ti : Nat) (N : Int) :
    Int × Option String :=
  go (List.range mL) 1
where
  go : List Nat → Int → Int × Option String
    | [], _ => (N, none)
    | i :: rest, n =>
      if i < ti + 1 then go rest n
      else if scale.contains (pyGet note_names i) then
        (n, some (pyGet note_names i))
      else go rest (n + 1)

/-- Downward search of the non-12-semitone branch of `closest_note`
(`musicutils.py` lines 1248-1258). -/
def downSearch (note_names scale : List String) (ti : Nat) (distance : Int) :
    Option (String × Int) :=
  go (List.range ti) 1
where
  go : List Nat → Int → Option (String × Int)
    | [], _ => none
    | i :: rest, n =>
      if scale.contains (pyGet note_names (ti - i)) then
        if n < distance then some (pyGet note_names (ti - i), n)
        else go rest (n + 1)
      else go rest n

/-- `musicutils.py` `KeySignature.closest_note` (lines 1199-1329).
`none` models the `KeyError` raised at `for k in self.EQUIVALENTS[target]`
when the (unclassifiable) target is missing from the table. -/
def closest_note (st : State) (targetArg : String) :
    Option (String × Int × Int × Int) :=
  let target := normalize_pitch targetArg
  let mL := get_mode_length st
  if st.number_of_semitones ≠ 12 then
    match listIndex (st.scale.take mL) target with
    | some i => some (target, (i : Int), 0, 0)
    | none =>
      if st.note_names.contains target then
        let ti := (listIndex st.note_names target).getD 0
        let (distance, closestOpt) :=
          upSearch st.note_names st.scale mL ti (st.number_of_semitones : Int)
        match downSearch st.note_names st.scale ti distance with
        | some (note, n) =>
          some (note, ((listIndex st.scale note).getD 0 : Int), -n, 0)
        | none =>
          if distance < (st.number_of_semitones : Int) then
            let c := closestOpt.getD ""
            some (c, ((listIndex st.scale c).getD 0 : Int), distance, 0)
          else some (target, 0, 0, -1)
      else some (target, 0, 0, -1)
  else
    match listIndex (st.scale.take mL) target with
    | some i => some (target, (i : Int), 0, 0)
    | none =>
      let eqs := (lookup1 EQUIVALENTS target).getD []
      match (List.range mL).findIdx? (fun i =>
          hasKey EQUIVALENTS target ∧ eqs.contains (pyGet st.scale i)) with
      | some i => some (pyGet st.scale i, (i : Int), 0, 0)
      | none =>
        let closest := pyGet st.scale 0
        match chromPosOf target with
        | none => none
        | some i2 =>
          if i2 = -1 then
            some (closest, 0, (st.number_of_semitones : Int), -1)
          else
            closestLoop st i2 (List.range mL)
              (closest, 0, (st.number_of_semitones : Int))

/-- Python return values of `scalar_transform`, which returns a
2-tuple on its success paths and a 3-tuple (with an error code) on its
error path. -/
inductive PyRet where
  | pair (pitch : String) (delta_octave : Int)
  | triple (pitch : String) (delta_octave : Int) (err : Int)
deriving Repr, DecidableEq

/-- `musicutils.py` `KeySignature.scalar_transform` (lines 1122-1197).
`none` models the exceptions (`ValueError` from `NOTES_SHARP.index` /
`NOTES_FLAT.index` on a scale note missing from the table, the
propagated `closest_note` exception, and the division by a zero mode
length). -/
def scalar_transform (st : State) (spArg : String) (steps : Int) :
    Option PyRet := do
  let sp := normalize_pitch spArg
  let (_, closest_index, distance, e) ← closest_note st sp
  if e < 0 then return PyRet.triple sp 0 e
  else
    let new_index := closest_index + steps
    let mL := get_mode_length st
    if mL = 0 then none
    else
      -- `int(new_index / mode_length)`: float division truncated toward 0.
      let delta_octave := Int.tdiv new_index (mL : Int)
      let normalized_index := (pyWrap (mL : Int) new_index 0).fst
      let new_note := pyGet st.scale normalized_index.toNat
      let delta_octave := if new_index < 0 then delta_octave - 1 else delta_octave
      if distance = 0 then return PyRet.pair new_note delta_octave
      else
        let i ← if pyIn "#" sp then listIndex NOTES_SHARP new_note
          else listIndex NOTES_FLAT new_note
        let i := (i : Int) + distance
        let i := if i < 0 then i + mL else if i > (mL : Int) then i - mL else i
        if pyIn "#" sp then return PyRet.pair (pyGet NOTES_SHARP i.toNat) delta_octave
        else return PyRet.pair (pyGet NOTES_FLAT i.toNat) delta_octave

end MU

namespace KS

/-- `keysignature.py` `MAQAM_KEY_OVERRIDES`. -/
def MAQAM_KEY_OVERRIDES : List (String × String) := [
  ("hijaz kar", "c"), ("hijaz kar maqam", "c"), ("shahnaz", "d"),
  ("maqam mustar", "eb"), ("maqam jiharkah", "f"), ("shadd araban", "g"),
  ("suzidil", "a"), ("ajam", "bb"), ("ajam maqam", "bb")]

/-- Pitch-type tags of `keysignature.py`. -/
def GENERIC_NOTE_NAME : String := "generic note name"

def LETTER_NAME : String := "letter name"

def SOLFEGE_NAME : String := "solfege name"

def EAST_INDIAN_SOLFEGE_NAME : String := "east indian solfege name"

def SCALAR_MODE_NUMBER : String := "scalar mode number"

def CUSTOM_NAME : String := "custom name"

def UNKNOWN : String := "unknown"

/-- `keysignature.py` `SCALAR_MODE_NUMBERS`. -/
def SCALAR_MODE_NUMBERS : List String := ["1", "2", "3", "4", "5", "6", "7"]

/-- `keysignature.py` `SOLFEGE_NAMES`. -/
def SOLFEGE_NAMES : List String := ["do", "re", "me", "fa", "sol", "la", "ti"]

/-- `keysignature.py` `EAST_INDIAN_NAMES`. -/
def EAST_INDIAN_NAMES : List String := ["sa", "re", "ga", "ma", "pa", "dha", "ni"]

/-- `keysignature.py` `SOLFEGE_SHARP`. -/
def SOLFEGE_SHARP : List String :=
  ["do", "do#", "re", "re#", "me", "fa", "fa#", "sol", "sol#", "la", "la#", "ti"]

/-- `keysignature.py` `SOLFEGE_FLAT`. -/
def SOLFEGE_FLAT : List String :=
  ["do", "reb", "re", "meb", "me", "fa", "solb", "sol", "lab", "la", "tib", "ti"]

/-- `keysignature.py` `EAST_INDIAN_SHARP`. -/
def EAST_INDIAN_SHARP : List String :=
  ["sa", "sa#", "re", "re#", "ga", "ma", "ma#", "pa", "pa#", "dha", "dha#", "ni"]

/-- `keysignature.py` `EAST_INDIAN_FLAT`. -/
def EAST_INDIAN_FLAT : List String :=
  ["sa", "reb", "re", "gab", "ga", "ma", "pab", "pa", "dhab", "dha", "nib", "ni"]

/-- `keysignature.py` `SCALAR_NAMES_SHARP`. -/
def SCALAR_NAMES_SHARP : List String :=
  ["1", "1#", "2", "2#", "3", "4", "4#", "5", "5#", "6", "6#", "7"]

/-- `keysignature.py` `SCALAR_NAMES_FLAT`. -/
def SCALAR_NAMES_FLAT : List String :=
  ["1", "2b", "2", "3b", "3", "4", "4b", "5", "6b", "6", "7b", "7"]

/-- `keysignature.py` `PREFER_SHARPS` (the 62-entry list). -/
def PREFER_SHARPS : List String := [
  "c major", "c major pentatonic", "c major blues", "c whole tone",
  "d dorian", "e phrygian", "f lydian", "g mixolydian", "a minor",
  "a minor pentatonic", "b locrian",
  "g major", "g major pentatonic", "g major blues", "g whole tone",
  "a dorian", "b phrygian", "c lydian", "d mixolydian", "e minor",
  "e minor pentatonic", "f# locrian",
  "d major", "d major pentatonic", "d major blues", "d whole tone",
  "e dorian", "f# phrygian", "g lydian", "a mixolydian", "b minor",
  "b minor pentatonic", "c# locrian",
  "a major", "a major pentatonic", "a major blues", "a whole tone",
  "b dorian", "c# phrygian", "d lydian", "e mixolydian", "f# minor",
  "f# minor pentatonic",
  "e major", "e major pentatonic", "e major blues", "e whole tone",
  "f# dorian", "a lydian", "b mixolydian", "c# minor",
  "c# minor pentatonic",
  "b major", "b major pentatonic", "b major blues", "b whole tone",
  "c# dorian", "d# phrygian", "e lydian", "f# mixolydian", "g# minor",
  "g# minor pentatonic", "a# locrian"]

/-- `keysignature.py` `EQUIVALENT_FLATS`. -/
def EQUIVALENT_FLATS : List (String × String) :=
  [("c#", "db"), ("d#", "eb"), ("f#", "gb"), ("g#", "ab"), ("a#", "bb"),
   ("e#", "f"), ("b#", "c"), ("cb", "cb"), ("fb", "fb")]

/-- `keysignature.py` `EQUIVALENT_SHARPS`. -/
def EQUIVALENT_SHARPS : List (String × String) :=
  [("db", "c#"), ("eb", "d#"), ("gb", "f#"), ("ab", "g#"), ("bb", "a#"),
   ("cb", "b"), ("fb", "e"), ("e#", "e#"), ("b#", "b#")]

/-- `keysignature.py` `EQUIVALENTS`. -/
def EQUIVALENTS : List (String × List String) := [
  ("ax", ["b", "cb"]), ("a#", ["bb"]), ("a", ["a", "bbb", "gx"]),
  ("ab", ["g#"]), ("abb", ["g", "fx"]), ("bx", ["c#"]),
  ("b#", ["c", "dbb"]), ("b", ["b", "cb", "ax"]), ("bb", ["a#"]),
  ("bbb", ["a", "gx"]), ("cx", ["d"]), ("c#", ["db"]),
  ("c", ["c", "dbb", "b#"]), ("cb", ["b"]), ("cbb", ["bb", "a#"]),
  ("dx", ["e", "fb"]), ("d#", ["eb", "fbb"]), ("d", ["d", "ebb", "cx"]),
  ("db", ["c#", "bx"]), ("dbb", ["c", "b#"]), ("ex", ["f#", "gb"]),
  ("e#", ["f", "gbb"]), ("e", ["e", "fb", "dx"]), ("eb", ["d#", "fbb"]),
  ("ebb", ["d", "cx"]), ("fx", ["g", "abb"]), ("f#", ["gb", "ex"]),
  ("f", ["f", "e#", "gbb"]), ("fb", ["e", "dx"]), ("fbb", ["eb", "d#"]),
  ("gx", ["a", "bbb"]), ("g#", ["ab"]), ("g", ["g", "abb", "fx"]),
  ("gb", ["f#", "ex"]), ("gbb", ["f", "e#"])]

/-- `keysignature.py` `CONVERT_DOWN`. -/
def CONVERT_DOWN : List (String × String) := [
  ("c", "b#"), ("cb", "b"), ("cbb", "a#"), ("d", "cx"), ("db", "c#"),
  ("dbb", "c"), ("e", "dx"), ("eb", "d#"), ("ebb", "d"), ("f", "e#"),
  ("fb", "e"), ("fbb", "d#"), ("g", "fx"), ("gb", "f#"), ("gbb", "f"),
  ("a", "gx"), ("ab", "g#"), ("abb", "g"), ("b", "ax"), ("bb", "a#"),
  ("bbb", "a")]

/-- `keysignature.py` `CONVERT_UP`. -/
def CONVERT_UP : List (String × String) := [
  ("cx", "d"), ("c#", "db"), ("c", "dbb"), ("dx", "e"), ("d#", "eb"),
  ("d", "ebb"), ("ex", "f#"), ("e#", "f"), ("e", "fb"), ("fx", "g"),
  ("f#", "gb"), ("f", "gbb"), ("gx", "a"), ("g#", "ab"), ("g", "abb"),
  ("ax", "b"), ("a#", "bb"), ("a", "bbb"), ("bx", "c#"), ("b#", "c"),
  ("b", "cb")]

/-- `keysignature.py` `_prefer_sharps` (the commented-out
`MODE_MAPPER` block is dead code in the source). -/
def prefer_sharps (key mode : String) : Bool :=
  PREFER_SHARPS.contains (key ++ " " ++ mode)

/-- `keysignature.py` `is_a_sharp`. -/
def is_a_sharp (pitch_name : String) : Bool :=
  pyEndsWith pitch_name "#" ∨ PITCH_LETTERS.contains pitch_name

/-- `keysignature.py` `find_sharp_index` (prints and returns 0 when the
name cannot be resolved). -/
def find_sharp_index (pitch_name : String) : Nat :=
  match listIndex NOTES_SHARP pitch_name with
  | some i => i
  | none =>
    match lookup1 CONVERT_UP pitch_name with
    | some new_pitch_name => (listIndex NOTES_SHARP new_pitch_name).getD 0
    | none => 0

/-- `keysignature.py` `is_a_flat`. -/
def is_a_flat (pitch_name : String) : Bool :=
  pyEndsWith pitch_name "b" ∨ PITCH_LETTERS.contains pitch_name

/-- `keysignature.py` `find_flat_index`. -/
def find_flat_index (pitch_name : String) : Nat :=
  match listIndex NOTES_FLAT pitch_name with
  | some i => i
  | none =>
    match lookup1 CONVERT_DOWN pitch_name with
    | some new_pitch_name => (listIndex NOTES_FLAT new_pitch_name).getD 0
    | none => 0

/-- One step of the Latin no-skipped-letters pass of `normalize_scale`
(`keysignature.py` lines 595-603); `none` models the `ValueError` of
`PITCH_LETTERS.index` on a non-letter first character. -/
def latinStep (scale : List String) (i : Nat) : Option (List String) := do
  let i1 ← listIndex PITCH_LETTERS (pyHead (pyGet scale i))
  let i2 ← listIndex PITCH_LETTERS (pyHead (pyGet scale (i + 1)))
  let i2 := if i2 < i1 then i2 + 7 else i2
  if i2 - i1 > 1 then
    if hasKey CONVERT_DOWN (pyGet scale (i + 1)) then
      return scale.set (i + 1) ((lookup1 CONVERT_DOWN (pyGet scale (i + 1))).getD "")
    else return scale
  else return scale

/-- One step of the no-repeated-letters pass of `normalize_scale`
(`keysignature.py` lines 604-623); as in `MU.repeatStep`, the
`Option String` component models the Python local `new_current_note`,
which persists between iterations and is unbound before its first
assignment. -/
def repeatStep (acc : List String × Option String) (i : Nat) :
    Option (List String × Option String) :=
  let (scale, ncn) := acc
  if i = 0 ∧ pyHead (pyGet scale i) = pyHead (pyGet scale (i + 1)) then
    if hasKey CONVERT_UP (pyGet scale (i + 1)) then
      some (scale.set (i + 1) ((lookup1 CONVERT_UP (pyGet scale (i + 1))).getD ""), ncn)
    else some (scale, ncn)
  else if i ≠ 0 ∧ pyHead (pyGet scale i) = pyHead (pyGet scale (i + 1)) then
    let ncn1 := if hasKey CONVERT_DOWN (pyGet scale i) then
        some ((lookup1 CONVERT_DOWN (pyGet scale i)).getD "")
      else ncn
    match ncn1 with
    | none => none
    | some nc =>
      if pyHead nc ≠ pyHead (pyGet scale (i - 1)) then
        some (scale.set i nc, some nc)
      else if hasKey CONVERT_UP (pyGet scale (i + 1)) then
        some (scale.set (i + 1) ((lookup1 CONVERT_UP (pyGet scale (i + 1))).getD ""), some nc)
      else some (scale, some nc)
  else some (scale, ncn)

/-- `keysignature.py` `normalize_scale` (lines 583-652): the
preferred-accidental conversion, the Latin no-skip and no-repeated-letter
passes, and the final double-accidental cleanup.  `none` models the
Python exceptions (`KeyError` on a missing `CONVERT_UP`/`CONVERT_DOWN`
entry, unbound `new_current_note`, `ValueError` in the Latin pass). -/
def normalize_scale (key mode : String) (scaleArg : List String) :
    Option (List String) := do
  let scale ←
    if scaleArg.length < 9 then do
      let scale := if ¬ prefer_sharps key mode ∧ pyIn "#" key then
          scaleArg.map (fun s =>
            if pyIn "b" s ∧ hasKey EQUIVALENT_SHARPS s then
              (lookup1 EQUIVALENT_SHARPS s).getD ""
            else s)
        else scaleArg
      let scale ← if scale.length = 8 then
          (List.range (scale.length - 1)).foldlM latinStep scale
        else pure scale
      let (scale, _) ← (List.range (scale.length - 1)).foldlM repeatStep
        (scale, (none : Option String))
      pure scale
    else
      pure (if pyIn "#" key then
        scaleArg.map (fun s =>
          if pyIn "b" s ∧ hasKey EQUIVALENT_SHARPS s then
            (lookup1 EQUIVALENT_SHARPS s).getD ""
          else s)
      else scaleArg)
  let convert_up := scale.any (fun s => pyIn "x" s)
  let convert_down := scale.any (fun s => s.length > 2)
  if convert_up then
    scale.mapM (fun s => do
      let s ← if pyIn "x" s then lookup1 CONVERT_UP s else pure s
      pure (if hasKey EQUIVALENT_FLATS s then (lookup1 EQUIVALENT_FLATS s).getD "" else s))
  else if convert_down then
    scale.mapM (fun s => do
      let s ← if s.length > 2 then lookup1 CONVERT_DOWN s else pure s
      pure (if hasKey EQUIVALENT_SHARPS s then (lookup1 EQUIVALENT_SHARPS s).getD "" else s))
  else pure scale

/-- State assembled by `keysignature.py` `KeySignature.__init__`
(without the derived solfege tables, which do not feed the claims
settled on this version). -/
structure State where
  mode : String
  half_steps : List Int
  key : String
  key_signature : String
  number_of_semitones : Nat
  note_names : List String
  generic_scale : List String
  scale : List String
  custom_note_names : List String
deriving Repr, DecidableEq

/-- `keysignature.py` `KeySignature.__init__` (lines 450-545).  The
`number_of_semitones` parameter of the Python signature is never read
(its one use, line 509, touches `self.number_of_semitones` before that
attribute exists, which raises).  `none` models the exception paths. -/
def init (modeArg : MU.ModeArg) (keyArg : String) : Option State := do
  let (key0, mode, half_steps) :=
    match modeArg with
    | .str s =>
      let s := pyLower s
      let (k, s) :=
        if hasKey MAQAM_KEY_OVERRIDES s then
          ((lookup1 MAQAM_KEY_OVERRIDES s).getD "", "maqam")
        else (keyArg, s)
      match lookup1 MUSICAL_MODES s with
      | some hs => (k, s, hs)
      | none => (k, "chromatic", (lookup1 MUSICAL_MODES "chromatic").getD [])
    | .ints l => (keyArg, "custom", l)
  -- key resolution (`normalize_pitch` is applied to a local variable the
  -- source never reads back; `self.key` keeps the raw argument).
  let (key, i) ←
    if prefer_sharps key0 mode ∨ pyIn "#" key0 then do
      let key ← if ¬ NOTES_SHARP.contains key0 then lookup1 EQUIVALENT_SHARPS key0
        else pure key0
      pure (key, find_sharp_index key)
    else if NOTES_FLAT.contains key0 ∨ pyIn "b" key0 then do
      let key ← if ¬ NOTES_FLAT.contains key0 then lookup1 EQUIVALENT_FLATS key0
        else pure key0
      pure (key, find_flat_index key)
    else if pyHead key0 = "n" ∧ pyIsDecimal (pyDrop key0 1) then
      pure (key0, pyToNat (pyDrop key0 1))
    else
      pure (key0, 0)
  -- scale construction; an empty half-step list reaches the unset
  -- `self.number_of_semitones` (line 509) and raises.
  if half_steps.isEmpty then none
  else
    let sd := (KSScale.init [] (some half_steps) (i : Int) 12).fst
    let generic_scale := sd.scale
    let number_of_semitones := sd.number_of_semitones
    if number_of_semitones = 12 then do
      let note_names := sd.note_names
      let fmt := if prefer_sharps key mode ∨ pyIn "#" key then NOTES_SHARP
        else NOTES_FLAT
      let projected := generic_scale.map
        (fun s => pyGet fmt ((listIndex note_names s).getD 0))
      let projected := (projected.set 0 key).set (projected.length - 1) key
      let scale ← normalize_scale key mode projected
      return { mode := mode, half_steps := half_steps, key := key,
               key_signature := key ++ " " ++ mode,
               number_of_semitones := number_of_semitones,
               note_names := note_names, generic_scale := generic_scale,
               scale := scale, custom_note_names := [] }
    else
      return { mode := mode, half_steps := half_steps, key := key,
               key_signature := key ++ " " ++ mode,
               number_of_semitones := number_of_semitones,
               note_names := sd.note_names, generic_scale := generic_scale,
               scale := generic_scale, custom_note_names := [] }

/-- `keysignature.py` `get_scale`: `self.scale[:-1]`. -/
def get_scale (st : State) : List String := st.scale.dropLast

/-- `keysignature.py` `get_mode_length`: `len(self.scale) - 1`. -/
def get_mode_length (st : State) : Nat := st.scale.length - 1

/-- `keysignature.py` `set_custom_note_names` (lines 783-799): reject
(with error code `-1`, leaving the stored list unchanged) unless the
supplied list has exactly `get_mode_length` entries; otherwise store a
copy and return `0`. -/
def set_custom_note_names (st : State) (custom_names : List String) :
    Int × State :=
  if custom_names.length ≠ get_mode_length st then (-1, st)
  else (0, { st with custom_note_names := custom_names })

/-- `keysignature.py` `get_custom_note_names`. -/
def get_custom_note_names (st : State) : List String := st.custom_note_names

/-- `keysignature.py` `get_pitch_type` for an instance whose
`custom_note_names` list is `custom`. -/
def get_pitch_type (custom : List String) (pitch_nameArg : String) : String :=
  let p := normalize_pitch pitch_nameArg
  if NOTES_SHARP.contains p then LETTER_NAME
  else if NOTES_FLAT.contains p then LETTER_NAME
  else if hasKey EQUIVALENT_SHARPS p then LETTER_NAME
  else if hasKey EQUIVALENT_FLATS p then LETTER_NAME
  else
    let p := (strip_accidental p).fst
    if pyHead p = "n" ∧ pyIsDecimal (pyDrop p 1) then GENERIC_NOTE_NAME
    else if SOLFEGE_NAMES.contains p then SOLFEGE_NAME
    else if EAST_INDIAN_NAMES.contains p then EAST_INDIAN_SOLFEGE_NAME
    else if SCALAR_MODE_NUMBERS.contains p then SCALAR_MODE_NUMBER
    else if custom.contains p then CUSTOM_NAME
    else UNKNOWN

/-- `keysignature.py` `convert_to_generic_note_name` (lines 832-937),
specialized to the state of the claim instances: a 12-semitone
temperament, `fixed_solfege = False` (the constructor default) and no
custom note names.  Under that state every `if self.fixed_solfege` test
fails and the custom-name list is empty, so the `_name_converter`
branches are dead and the moveable lookup tables below are exactly the
paths the source takes.  The sequential `if` blocks of the source fall
through to the final `(name, -1)` error return. -/
def convert_to_generic_note_name (pitch_nameArg : String) : String × Int :=
  let p := normalize_pitch pitch_nameArg
  let note_names := makeNoteNames 12
  let t := get_pitch_type [] p
  if t = GENERIC_NOTE_NAME then (p, 0)
  else if t = LETTER_NAME ∧ (pyIn "#" p ∧ is_a_sharp p) then
    (pyGet note_names (find_sharp_index p), 0)
  else if t = LETTER_NAME ∧ is_a_flat p then
    (pyGet note_names (find_flat_index p), 0)
  else if t = LETTER_NAME ∧ hasKey EQUIVALENT_SHARPS p then
    -- dead code: every letter-classified name is caught above
    (pyGet note_names
      ((listIndex NOTES_SHARP ((lookup1 EQUIVALENT_SHARPS p).getD "")).getD 0), 0)
  else if t = LETTER_NAME ∧ hasKey EQUIVALENT_FLATS p then
    (pyGet note_names (find_flat_index ((lookup1 EQUIVALENT_FLATS p).getD "")), 0)
  else if t = LETTER_NAME ∧ hasKey EQUIVALENTS p then
    (if pyIn "#" (pyGet ((lookup1 EQUIVALENTS p).getD []) 0) then
      (pyGet note_names (find_sharp_index (pyGet ((lookup1 EQUIVALENTS p).getD []) 0)), 0)
    else
      (pyGet note_names (find_flat_index (pyGet ((lookup1 EQUIVALENTS p).getD []) 0)), 0))
  else if t = SOLFEGE_NAME ∧ (pyIn "#" p ∧ SOLFEGE_SHARP.contains p) then
    (pyGet note_names ((listIndex SOLFEGE_SHARP p).getD 0), 0)
  else if t = SOLFEGE_NAME ∧ SOLFEGE_FLAT.contains p then
    (pyGet note_names ((listIndex SOLFEGE_FLAT p).getD 0), 0)
  else if t = CUSTOM_NAME ∧ (pyIn "#" p ∧ SCALAR_NAMES_SHARP.contains p) then
    (pyGet note_names ((listIndex SCALAR_NAMES_SHARP p).getD 0), 0)
  else if t = CUSTOM_NAME ∧ SCALAR_NAMES_FLAT.contains p then
    (pyGet note_names ((listIndex SCALAR_NAMES_FLAT p).getD 0), 0)
  else if t = EAST_INDIAN_SOLFEGE_NAME ∧ (pyIn "#" p ∧ EAST_INDIAN_SHARP.contains p) then
    (pyGet note_names ((listIndex EAST_INDIAN_SHARP p).getD 0), 0)
  else if t = EAST_INDIAN_SOLFEGE_NAME ∧ EAST_INDIAN_FLAT.contains p then
    (pyGet note_names ((listIndex EAST_INDIAN_FLAT p).getD 0), 0)
  else if t = SCALAR_MODE_NUMBER ∧ (pyIn "#" p ∧ SCALAR_NAMES_SHARP.contains p) then
    (pyGet note_names ((listIndex SCALAR_NAMES_SHARP p).getD 0), 0)
  else if t = SCALAR_MODE_NUMBER ∧ SCALAR_NAMES_FLAT.contains p then
    (pyGet note_names ((listIndex SCALAR_NAMES_FLAT p).getD 0), 0)
  else (p, -1)

/-- `keysignature.py` `generic_note_name_to_letter_name`, specialized to
a 12-semitone temperament (the claim instances). -/
def generic_note_name_to_letter_name (note_nameArg : String)
    (prefer : Bool) : String × Int :=
  let n := normalize_pitch note_nameArg
  let note_names := makeNoteNames 12
  if is_a_sharp n then (n, 0)
  else if is_a_flat n then (n, 0)
  else if note_names.contains n then
    (if prefer then pyGet NOTES_SHARP ((listIndex note_names n).getD 0)
     else pyGet NOTES_FLAT ((listIndex note_names n).getD 0), 0)
  else (n, -1)

/-- `keysignature.py` `_find_moveable`, specialized to a 12-semitone
temperament.  `none` models the implicit `return None` that Python takes
when every branch falls through (the caller then subscripts `None` and
raises). -/
def find_moveable (note_nameArg : String) (sharp_scale flat_scale : List String)
    (prefer : Bool) : Option (String × Int) :=
  let n := normalize_pitch note_nameArg
  let note_names := makeNoteNames 12
  if sharp_scale.contains n then some (n, 0)
  else if flat_scale.contains n then some (n, 0)
  else if note_names.contains n then
    some ((if prefer then pyGet sharp_scale ((listIndex note_names n).getD 0)
      else pyGet flat_scale ((listIndex note_names n).getD 0)), 0)
  else none

/-- `generic_note_name_to_solfege` with `fixed_solfege = False` (the
moveable path of the source). -/
def generic_note_name_to_solfege (n : String) (prefer : Bool) :
    Option (String × Int) :=
  find_moveable n SOLFEGE_SHARP SOLFEGE_FLAT prefer

/-- `generic_note_name_to_east_indian_solfege` with
`fixed_solfege = False`. -/
def generic_note_name_to_east_indian_solfege (n : String) (prefer : Bool) :
    Option (String × Int) :=
  find_moveable n EAST_INDIAN_SHARP EAST_INDIAN_FLAT prefer

/-- `generic_note_name_to_scalar_mode_number` with
`fixed_solfege = False`. -/
def generic_note_name_to_scalar_mode_number (n : String) (prefer : Bool) :
    Option (String × Int) :=
  find_moveable n SCALAR_NAMES_SHARP SCALAR_NAMES_FLAT prefer

/-- `keysignature.py` `KeySignature.semitone_transform` (lines 1177-1277),
specialized as above (12 semitones, movable solfege, no custom names --
under this state the function reads no other instance data).  `none`
models the `TypeError` Python raises when a conversion helper returns
`None` and is subscripted (unreachable from the recognized inputs). -/
def semitone_transform (starting_pitchArg : String)
    (number_of_half_steps : Int) : Option (String × Int × Int) :=
  let sp := normalize_pitch starting_pitchArg
  let t := get_pitch_type [] sp
  let note_names := makeNoteNames 12
  if t = LETTER_NAME then
    if is_a_sharp sp then
      let i := (find_sharp_index sp : Int) + number_of_half_steps
      let r := pyWrap 12 i 0
      some (pyGet NOTES_SHARP r.fst.toNat, r.snd, 0)
    else if is_a_flat sp then
      let i := (find_flat_index sp : Int) + number_of_half_steps
      let r := pyWrap 12 i 0
      some (pyGet NOTES_FLAT r.fst.toNat, r.snd, 0)
    else
      let sa := strip_accidental sp
      let ne :=
        if note_names.contains sa.fst then (sa.fst, (0 : Int))
        else convert_to_generic_note_name sa.fst
      if ne.snd = 0 ∧ note_names.contains ne.fst then
        let i := ((listIndex note_names ne.fst).getD 0 : Int) + number_of_half_steps
        let r := pyWrap 12 (i + sa.snd) 0
        some (pyGet note_names r.fst.toNat, r.snd, 0)
      else some (sp, 0, -1)
  else
    let note_name := (convert_to_generic_note_name sp).fst
    let sa := strip_accidental note_name
    if note_names.contains sa.fst then
      let i := ((listIndex note_names sa.fst).getD 0 : Int) + number_of_half_steps
      let r := pyWrap 12 (i + sa.snd) 0
      if t = SOLFEGE_NAME then
        (generic_note_name_to_solfege (pyGet note_names r.fst.toNat)
          (pyIn "#" sp)).map (fun q => (q.fst, r.snd, 0))
      else if t = EAST_INDIAN_SOLFEGE_NAME then
        (generic_note_name_to_east_indian_solfege (pyGet note_names r.fst.toNat)
          (pyIn "#" sp)).map (fun q => (q.fst, r.snd, 0))
      else if t = SCALAR_MODE_NUMBER then
        (generic_note_name_to_scalar_mode_number (pyGet note_names r.fst.toNat)
          (pyIn "#" sp)).map (fun q => (q.fst, r.snd, 0))
      else some (pyGet note_names r.fst.toNat, r.snd, 0)
    else some (sp, 0, -1)

/-- `keysignature.py` `_map_to_semitone_range` (lines 1147-1175),
specialized to a 12-semitone temperament: the same wrap loops as the
semitone transform. -/
def map_to_semitone_range (i delta_octave : Int) : Int × Int :=
  pyWrap 12 i delta_octave

/-- `keysignature.py` `_restore_format` (lines 1385-1401), specialized
as above (moveable solfege, no custom names).  The custom branch calls
the misnamed method `generic_note_name_to_custom_note` (the class only
defines `generic_note_name_to_custom_note_name`), so it would raise
`AttributeError`; with the empty custom list `get_pitch_type` never
returns the custom tag, so the branch is unreachable and modelled as
`none`.  The scalar and East Indian branches call their converters
without `prefer_sharps`, whose default is `True`. -/
def restore_format (pitch_name orig : String) (prefer : Bool) : Option String :=
  if orig = GENERIC_NOTE_NAME then some pitch_name
  else if orig = LETTER_NAME then
    some (generic_note_name_to_letter_name pitch_name prefer).fst
  else if orig = SOLFEGE_NAME then
    (generic_note_name_to_solfege pitch_name prefer).map Prod.fst
  else if orig = CUSTOM_NAME then none
  else if orig = SCALAR_MODE_NUMBER then
    (generic_note_name_to_scalar_mode_number pitch_name true).map Prod.fst
  else if orig = EAST_INDIAN_SOLFEGE_NAME then
    (generic_note_name_to_east_indian_solfege pitch_name true).map Prod.fst
  else some pitch_name

/-- `keysignature.py` `KeySignature.closest_note` (lines 1403-1500),
specialized as above.  `none` models the Python exceptions: the local
`i` is read while unbound when the converted target's stripped form is
not a generic note name (`UnboundLocalError`), and `_restore_format`
can propagate a failed conversion.  The upward search reuses
`MU.upSearch` and the downward search `MU.downSearch`: the loops of
`closest_note` (lines 1455-1480) are line for line those of the
non-12-semitone branch of `musicutils.py` `closest_note` (lines
1237-1258), searching `self.generic_scale` here. -/
def closest_note (st : State) (targetArg : String) :
    Option (String × Int × Int × Int) := do
  let target := normalize_pitch targetArg
  let orig := get_pitch_type [] target
  let prefer := pyIn "#" target
  let target := (convert_to_generic_note_name target).fst
  let sa := strip_accidental target
  if ¬ st.note_names.contains sa.fst then none
  else
    let i0 := ((listIndex st.note_names sa.fst).getD 0 : Int)
    let i1 := (map_to_semitone_range (i0 + sa.snd) 0).fst
    let target := pyGet st.note_names i1.toNat
    let mL := get_mode_length st
    match (List.range mL).findIdx? (fun j => target == pyGet st.generic_scale j) with
    | some j => do
      let r ← restore_format target orig prefer
      return (r, (j : Int), 0, 0)
    | none =>
      if st.note_names.contains target then
        let ti := (listIndex st.note_names target).getD 0
        let (distance, closestOpt) :=
          MU.upSearch st.note_names st.generic_scale mL ti (st.number_of_semitones : Int)
        match MU.downSearch st.note_names st.generic_scale ti distance with
        | some (note, n) => do
          let r ← restore_format note orig prefer
          return (r, ((listIndex st.generic_scale note).getD 0 : Int), -n, 0)
        | none =>
          if distance < (st.number_of_semitones : Int) then do
            let c := closestOpt.getD ""
            let r ← restore_format c orig prefer
            return (r, ((listIndex st.generic_scale c).getD 0 : Int), distance, 0)
          else do
            let r ← restore_format target orig prefer
            return (r, 0, 0, -1)
      else do
        let r ← restore_format target orig prefer
        return (r, 0, 0, -1)

end KS

/-! Arithmetic characterization of the wrap loops. -/

lemma wrapNegAux_nonneg : ∀ (fuel : Nat) (i d : Int), 0 ≤ i →
    wrapNegAux 12 fuel i d = (i, d)
  | 0, _, _, _ => rfl
  | fuel + 1, i, d, h => by
    simp only [wrapNegAux]
    rw [if_neg (by omega)]

lemma wrapNegAux_neg : ∀ (fuel : Nat) (i d : Int), i < 0 →
    (-i).toNat ≤ fuel → wrapNegAux 12 fuel i d = (i % 12, d + i / 12)
  | 0, i, _, h, hf => by omega
  | fuel + 1, i, d, h, hf => by
    simp only [wrapNegAux]
    rw [if_pos (by omega)]
    by_cases h2 : i + 12 < 0
    · rw [wrapNegAux_neg fuel (i + 12) (d - 1) h2 (by omega)]
      simp only [Prod.mk.injEq]
      omega
    · rw [wrapNegAux_nonneg fuel (i + 12) (d - 1) (by omega)]
      simp only [Prod.mk.injEq]
      omega

lemma wrapPosAux_spec : ∀ (fuel : Nat) (i d : Int), 0 ≤ i →
    i ≤ 12 * fuel + 11 → wrapPosAux 12 fuel i d = (i % 12, d + i / 12)
  | 0, i, d, h, hf => by
    simp only [wrapPosAux, Prod.mk.injEq]
    omega
  | fuel + 1, i, d, h, hf => by
    simp only [wrapPosAux]
    by_cases h2 : i > 11
    · rw [if_pos (by omega)]
      rw [wrapPosAux_spec fuel (i - 12) (d + 1) (by omega) (by omega)]
      simp only [Prod.mk.injEq]
      omega
    · rw [if_neg (by omega)]
      simp only [Prod.mk.injEq]
      omega

/-- The combined wrap loops compute Euclidean division by 12. -/
lemma pyWrap_twelve (i d : Int) : pyWrap 12 i d = (i % 12, d + i / 12) := by
  unfold pyWrap wrapNeg wrapPos
  by_cases h : i < 0
  · rw [wrapNegAux_neg _ _ _ h (by omega)]
    simp only []
    rw [wrapPosAux_spec _ _ _ (by omega) (by omega)]
    simp only [Prod.mk.injEq]
    omega
  · rw [wrapNegAux_nonneg _ _ _ (by omega)]
    simp only []
    rw [wrapPosAux_spec _ _ _ (by omega) (by omega)]

/-! Residue reduction for `KS.semitone_transform`: the pitch component of
the result depends on the half-step count only through its residue
modulo 12. -/

set_option maxHeartbeats 2000000 in
lemma st_pitch_congr (p : String) (x y : Int) (h : x % 12 = y % 12) :
    (KS.semitone_transform p x).map (fun r => r.fst) =
    (KS.semitone_transform p y).map (fun r => r.fst) := by
  simp only [KS.semitone_transform, pyWrap_twelve]
  split_ifs
  · simp only [Option.map_some']
    exact congrArg (fun z : Nat => some (pyGet NOTES_SHARP z)) (by omega)
  · simp only [Option.map_some']
    exact congrArg (fun z : Nat => some (pyGet NOTES_FLAT z)) (by omega)
  · simp only [Option.map_some']
    exact congrArg (fun z : Nat => some (pyGet (makeNoteNames 12) z)) (by omega)
  · rfl
  · simp only [Option.map_some']
    exact congrArg (fun z : Nat => some (pyGet (makeNoteNames 12) z)) (by omega)
  · rfl
  · simp only [Option.map_map, Function.comp_def]
    exact congrArg (fun z : Nat => Option.map (fun q : String × Int => q.fst)
      (KS.generic_note_name_to_solfege (pyGet (makeNoteNames 12) z)
        (pyIn "#" (normalize_pitch p)))) (by omega)
  · simp only [Option.map_map, Function.comp_def]
    exact congrArg (fun z : Nat => Option.map (fun q : String × Int => q.fst)
      (KS.generic_note_name_to_east_indian_solfege (pyGet (makeNoteNames 12) z)
        (pyIn "#" (normalize_pitch p)))) (by omega)
  · simp only [Option.map_map, Function.comp_def]
    exact congrArg (fun z : Nat => Option.map (fun q : String × Int => q.fst)
      (KS.generic_note_name_to_scalar_mode_number (pyGet (makeNoteNames 12) z)
        (pyIn "#" (normalize_pitch p)))) (by omega)
  · simp only [Option.map_some']
    exact congrArg (fun z : Nat => some (pyGet (makeNoteNames 12) z)) (by omega)
  · rfl

/-- The pitch names the engine recognizes without an error code, i.e.
the entries of the letter, solfege, East Indian, scalar-mode-number and
plain generic tables (generic names carrying an accidental suffix, such
as `"n3#"`, are also accepted by `get_pitch_type` but convert to
themselves rather than to a plain generic name; the amended claim C5
excludes them). -/
def recognizedPlain : List String :=
  NOTES_SHARP ++ NOTES_FLAT ++ ["e#", "b#", "cb", "fb"] ++
  KS.SOLFEGE_SHARP ++ KS.SOLFEGE_FLAT ++ KS.EAST_INDIAN_SHARP ++
  KS.EAST_INDIAN_FLAT ++ KS.SCALAR_NAMES_SHARP ++ KS.SCALAR_NAMES_FLAT ++
  makeNoteNames 12

/-- Transform by `n` half steps, transform the resulting pitch back by
`-n`, and read the generic note name of the result
(`convert_to_generic_note_name`). -/
def ksRoundTrip (p : String) (n : Int) : Option String :=
  (KS.semitone_transform p n).bind (fun r =>
    (KS.semitone_transform r.fst (-n)).map (fun r2 =>
      (KS.convert_to_generic_note_name r2.fst).fst))

lemma map_ctg_congr (o₁ o₂ : Option (String × Int × Int))
    (h : o₁.map (fun r => r.fst) = o₂.map (fun r => r.fst)) :
    o₁.map (fun r2 => (KS.convert_to_generic_note_name r2.fst).fst) =
    o₂.map (fun r2 => (KS.convert_to_generic_note_name r2.fst).fst) := by
  cases o₁ <;> cases o₂ <;> simp_all

lemma bind_congr_gen (o₁ o₂ : Option (String × Int × Int))
    (f g : String × Int × Int → Option String)
    (ho : o₁.map (fun r => r.fst) = o₂.map (fun r => r.fst))
    (hfg : ∀ r₁ r₂ : String × Int × Int, r₁.fst = r₂.fst → f r₁ = g r₂) :
    o₁.bind f = o₂.bind g := by
  cases o₁ with
  | none =>
    cases o₂ with
    | none => rfl
    | some b => simp at ho
  | some a =>
    cases o₂ with
    | none => simp at ho
    | some b =>
      simp only [Option.map_some'] at ho
      exact hfg a b (by injection ho)

lemma ksRoundTrip_congr (p : String) (x y : Int) (h : x % 12 = y % 12) :
    ksRoundTrip p x = ksRoundTrip p y := by
  unfold ksRoundTrip
  refine bind_congr_gen _ _ _ _ (st_pitch_congr p x y h) ?_
  intro r₁ r₂ hr
  beta_reduce
  rw [hr]
  exact map_ctg_congr _ _ (st_pitch_congr r₂.fst (-x) (-y) (by omega))

/-! ### Round-trip apparatus for claim C5

The check is split into a finite, kernel-decidable table (`step_sound`:
the action of `KS.semitone_transform` on every recognized table entry and
every residue modulo 12) and symbolic glue that extends it to all integers
via `ksRoundTrip_congr`. -/

/-- The plain generic note names `"n0"` .. `"n11"`. -/
def noteNames12 : List String := makeNoteNames 12
def famTables : List (List String) :=
  [NOTES_SHARP, NOTES_FLAT, KS.SOLFEGE_SHARP, KS.SOLFEGE_FLAT, KS.EAST_INDIAN_SHARP,
   KS.EAST_INDIAN_FLAT, KS.SCALAR_NAMES_SHARP, KS.SCALAR_NAMES_FLAT, noteNames12]
def sharpIdx : List Nat := [1, 3, 6, 8, 10]
def imageOf (T : List String) (i : Nat) : List String :=
  if T == NOTES_SHARP then NOTES_SHARP
  else if T == NOTES_FLAT then (if sharpIdx.contains i then NOTES_FLAT else NOTES_SHARP)
  else if T == KS.SOLFEGE_SHARP then (if sharpIdx.contains i then KS.SOLFEGE_SHARP else KS.SOLFEGE_FLAT)
  else if T == KS.SOLFEGE_FLAT then KS.SOLFEGE_FLAT
  else if T == KS.EAST_INDIAN_SHARP then
    (if i = 3 then KS.SOLFEGE_SHARP else if i = 2 then KS.SOLFEGE_FLAT
     else if sharpIdx.contains i then KS.EAST_INDIAN_SHARP else KS.EAST_INDIAN_FLAT)
  else if T == KS.EAST_INDIAN_FLAT then
    (if i = 1 ∨ i = 2 then KS.SOLFEGE_FLAT else KS.EAST_INDIAN_FLAT)
  else if T == KS.SCALAR_NAMES_SHARP then (if sharpIdx.contains i then KS.SCALAR_NAMES_SHARP else KS.SCALAR_NAMES_FLAT)
  else if T == KS.SCALAR_NAMES_FLAT then KS.SCALAR_NAMES_FLAT
  else noteNames12

def specialRows : List (String × List String × Nat) :=
  [("e#", NOTES_SHARP, 5), ("b#", NOTES_SHARP, 0), ("cb", NOTES_FLAT, 11), ("fb", NOTES_FLAT, 4)]

/-! The one-step transform table, split by source table so that each
kernel check stays within a bounded memory footprint. -/

set_option maxRecDepth 100000 in
set_option maxHeartbeats 4000000 in
lemma stepT0 : ∀ i ∈ List.range 12, ∀ r ∈ List.range 12,
    KS.semitone_transform (pyGet NOTES_SHARP i) (r : Int) =
      some (pyGet (imageOf NOTES_SHARP i) (((i : Int) + (r : Int)) % 12).toNat,
            ((i : Int) + (r : Int)) / 12, 0) := by decide

set_option maxRecDepth 100000 in
set_option maxHeartbeats 4000000 in
lemma stepT1 : ∀ i ∈ List.range 12, ∀ r ∈ List.range 12,
    KS.semitone_transform (pyGet NOTES_FLAT i) (r : Int) =
      some (pyGet (imageOf NOTES_FLAT i) (((i : Int) + (r : Int)) % 12).toNat,
            ((i : Int) + (r : Int)) / 12, 0) := by decide

set_option maxRecDepth 100000 in
set_option maxHeartbeats 4000000 in
lemma stepT2 : ∀ i ∈ List.range 12, ∀ r ∈ List.range 12,
    KS.semitone_transform (pyGet KS.SOLFEGE_SHARP i) (r : Int) =
      some (pyGet (imageOf KS.SOLFEGE_SHARP i) (((i : Int) + (r : Int)) % 12).toNat,
            ((i : Int) + (r : Int)) / 12, 0) := by decide

set_option maxRecDepth 100000 in
set_option maxHeartbeats 4000000 in
lemma stepT3 : ∀ i ∈ List.range 12, ∀ r ∈ List.range 12,
    KS.semitone_transform (pyGet KS.SOLFEGE_FLAT i) (r : Int) =
      some (pyGet (imageOf KS.SOLFEGE_FLAT i) (((i : Int) + (r : Int)) % 12).toNat,
            ((i : Int) + (r : Int)) / 12, 0) := by decide

set_option maxRecDepth 100000 in
set_option maxHeartbeats 4000000 in
lemma stepT4 : ∀ i ∈ List.range 12, ∀ r ∈ List.range 12,
    KS.semitone_transform (pyGet KS.EAST_INDIAN_SHARP i) (r : Int) =
      some (pyGet (imageOf KS.EAST_INDIAN_SHARP i) (((i : Int) + (r : Int)) % 12).toNat,
            ((i : Int) + (r : Int)) / 12, 0) := by decide

set_option maxRecDepth 100000 in
set_option maxHeartbeats 4000000 in
lemma stepT5 : ∀ i ∈ List.range 12, ∀ r ∈ List.range 12,
    KS.semitone_transform (pyGet KS.EAST_INDIAN_FLAT i) (r : Int) =
      some (pyGet (imageOf KS.EAST_INDIAN_FLAT i) (((i : Int) + (r : Int)) % 12).toNat,
            ((i : Int) + (r : Int)) / 12, 0) := by decide

set_option maxRecDepth 100000 in
set_option maxHeartbeats 4000000 in
lemma stepT6 : ∀ i ∈ List.range 12, ∀ r ∈ List.range 12,
    KS.semitone_transform (pyGet KS.SCALAR_NAMES_SHARP i) (r : Int) =
      some (pyGet (imageOf KS.SCALAR_NAMES_SHARP i) (((i : Int) + (r : Int)) % 12).toNat,
            ((i : Int) + (r : Int)) / 12, 0) := by decide

set_option maxRecDepth 100000 in
set_option maxHeartbeats 4000000 in
lemma stepT7 : ∀ i ∈ List.range 12, ∀ r ∈ List.range 12,
    KS.semitone_transform (pyGet KS.SCALAR_NAMES_FLAT i) (r : Int) =
      some (pyGet (imageOf KS.SCALAR_NAMES_FLAT i) (((i : Int) + (r : Int)) % 12).toNat,
            ((i : Int) + (r : Int)) / 12, 0) := by decide

set_option maxRecDepth 100000 in
set_option maxHeartbeats 4000000 in
lemma stepT8 : ∀ i ∈ List.range 12, ∀ r ∈ List.range 12,
    KS.semitone_transform (pyGet noteNames12 i) (r : Int) =
      some (pyGet (imageOf noteNames12 i) (((i : Int) + (r : Int)) % 12).toNat,
            ((i : Int) + (r : Int)) / 12, 0) := by decide

lemma step_sound : ∀ T ∈ famTables, ∀ i ∈ List.range 12, ∀ r ∈ List.range 12,
    KS.semitone_transform (pyGet T i) (r : Int) =
      some (pyGet (imageOf T i) (((i : Int) + (r : Int)) % 12).toNat,
            ((i : Int) + (r : Int)) / 12, 0) := by
  intro T hT
  fin_cases hT
  · exact stepT0
  · exact stepT1
  · exact stepT2
  · exact stepT3
  · exact stepT4
  · exact stepT5
  · exact stepT6
  · exact stepT7
  · exact stepT8

set_option maxRecDepth 100000 in
set_option maxHeartbeats 2000000 in
lemma ctg_sound : ∀ T ∈ famTables, ∀ i ∈ List.range 12,
    KS.convert_to_generic_note_name (pyGet T i) = (pyGet noteNames12 i, 0) := by decide

set_option maxRecDepth 100000 in
set_option maxHeartbeats 2000000 in
lemma special_st_sound : ∀ s ∈ specialRows, ∀ r ∈ List.range 12,
    KS.semitone_transform s.fst (r : Int) =
      some (pyGet s.snd.fst (((s.snd.snd : Int) + (r : Int)) % 12).toNat,
            ((s.snd.snd : Int) + (r : Int)) / 12, 0) := by decide

set_option maxRecDepth 100000 in
lemma special_ctg_sound : ∀ s ∈ specialRows,
    KS.convert_to_generic_note_name s.fst = (pyGet noteNames12 s.snd.snd, 0) := by decide

lemma imageOf_mem (T : List String) (i : Nat) : imageOf T i ∈ famTables := by
  unfold imageOf
  split_ifs <;> simp [famTables]

lemma famTables_len (T : List String) (hT : T ∈ famTables) : T.length = 12 := by
  fin_cases hT <;> rfl

lemma rt_table (T : List String) (hT : T ∈ famTables) (i0 : Nat) (hi0 : i0 < 12) (n : Int) :
    ksRoundTrip (pyGet T i0) n = some ((KS.convert_to_generic_note_name (pyGet T i0)).fst) := by
  rw [ksRoundTrip_congr _ n ((n % 12).toNat : Int) (by omega)]
  unfold ksRoundTrip
  rw [step_sound T hT i0 (List.mem_range.mpr hi0) (n % 12).toNat (List.mem_range.mpr (by omega))]
  simp only [Option.some_bind]
  rw [map_ctg_congr _ _ (st_pitch_congr _ (-((n % 12).toNat : Int))
    ((((-((n % 12).toNat : Int)) % 12).toNat : Int)) (by omega))]
  rw [step_sound (imageOf T i0) (imageOf_mem T i0)
    (((i0 : Int) + ((n % 12).toNat : Int)) % 12).toNat (List.mem_range.mpr (by omega))
    ((-((n % 12).toNat : Int)) % 12).toNat (List.mem_range.mpr (by omega))]
  rw [Option.map_some']
  rw [ctg_sound _ (imageOf_mem (imageOf T i0) _) _ (List.mem_range.mpr (by omega))]
  rw [ctg_sound T hT i0 (List.mem_range.mpr hi0)]
  exact congrArg (fun z => some (pyGet noteNames12 z)) (by omega)

lemma rt_special (p : String) (T : List String) (c : Nat)
    (hm : (p, T, c) ∈ specialRows) (hTf : T ∈ famTables) (hc : c < 12) (n : Int) :
    ksRoundTrip p n = some ((KS.convert_to_generic_note_name p).fst) := by
  have hstep : ∀ r ∈ List.range 12,
      KS.semitone_transform p (r : Int) =
        some (pyGet T (((c : Int) + (r : Int)) % 12).toNat, ((c : Int) + (r : Int)) / 12, 0) :=
    special_st_sound (p, T, c) hm
  have hctg : KS.convert_to_generic_note_name p = (pyGet noteNames12 c, 0) :=
    special_ctg_sound (p, T, c) hm
  rw [ksRoundTrip_congr _ n ((n % 12).toNat : Int) (by omega)]
  unfold ksRoundTrip
  rw [hstep (n % 12).toNat (List.mem_range.mpr (by omega))]
  simp only [Option.some_bind]
  rw [map_ctg_congr _ _ (st_pitch_congr _ (-((n % 12).toNat : Int))
    ((((-((n % 12).toNat : Int)) % 12).toNat : Int)) (by omega))]
  rw [step_sound T hTf
    (((c : Int) + ((n % 12).toNat : Int)) % 12).toNat (List.mem_range.mpr (by omega))
    ((-((n % 12).toNat : Int)) % 12).toNat (List.mem_range.mpr (by omega))]
  rw [Option.map_some']
  rw [ctg_sound _ (imageOf_mem T _) _ (List.mem_range.mpr (by omega))]
  rw [hctg]
  exact congrArg (fun z => some (pyGet noteNames12 z)) (by omega)

lemma rt_mem_table (p : String) (T : List String) (hT : T ∈ famTables) (hp : p ∈ T) (n : Int) :
    ksRoundTrip p n = some ((KS.convert_to_generic_note_name p).fst) := by
  obtain ⟨i, hi, hget⟩ := List.mem_iff_getElem.mp hp
  have hi12 : i < 12 := by rw [famTables_len T hT] at hi; exact hi
  have hpg : p = pyGet T i := by
    unfold pyGet
    rw [List.getD_eq_getElem T "" hi]
    exact hget.symm
  rw [hpg]
  exact rt_table T hT i hi12 n

/-! ### Helpers for the remaining claims -/

/-- Sum of a half-step pattern, as the accumulation loops compute it. -/
def psum (l : List Int) : Int := l.foldl (· + ·) 0

lemma foldl_add_shift (l : List Int) : ∀ a : Int, l.foldl (· + ·) a = a + l.foldl (· + ·) 0 := by
  induction l with
  | nil => intro a; simp
  | cons x xs ih => intro a; simp only [List.foldl_cons]; rw [ih (a + x), ih (0 + x)]; ring

lemma psum_cons (s : Int) (l : List Int) : psum (s :: l) = s + psum l := by
  show List.foldl (· + ·) (0 + s) l = s + psum l
  rw [foldl_add_shift l (0 + s)]
  unfold psum
  ring

lemma psum_append (a b : List Int) : psum (a ++ b) = psum a + psum b := by
  unfold psum
  rw [List.foldl_append]
  exact foldl_add_shift b _

lemma psum_nonneg (l : List Int) (h : ∀ s ∈ l, 0 < s) : 0 ≤ psum l := by
  induction l with
  | nil => simp [psum]
  | cons x xs ih =>
    rw [psum_cons]
    have hx := h x (List.mem_cons_self x xs)
    have := ih (fun s hs => h s (List.mem_cons_of_mem x hs))
    omega

lemma le_psum (l : List Int) (h : ∀ s ∈ l, 0 < s) : ∀ s ∈ l, s ≤ psum l := by
  induction l with
  | nil => intro s hs; simp at hs
  | cons x xs ih =>
    intro s hs
    rw [psum_cons]
    rcases List.mem_cons.mp hs with h1 | h1
    · have := psum_nonneg xs (fun t ht => h t (List.mem_cons_of_mem x ht))
      omega
    · have := ih (fun t ht => h t (List.mem_cons_of_mem x ht)) s h1
      have hx := h x (List.mem_cons_self x xs)
      omega

lemma emod_shift (N a X : Int) : (a % N + X) % N = (a + X) % N := by
  conv_rhs => rw [← Int.emod_add_ediv a N]
  have he : a % N + N * (a / N) + X = (a % N + X) + (a / N) * N := by ring
  rw [he, Int.add_mul_emod_self]

lemma ediv_shift (N a X : Int) (hN : N ≠ 0) :
    (a + X) / N = a / N + (a % N + X) / N := by
  conv_lhs => rw [← Int.emod_add_ediv a N]
  have he : a % N + N * (a / N) + X = (a % N + X) + (a / N) * N := by ring
  rw [he, Int.add_mul_ediv_right _ _ hN]
  ring

lemma ediv_one_of_between (N x : Int) (h1 : N ≤ x) (h2 : x < 2 * N) : x / N = 1 := by
  have hN : 0 < N := by omega
  have : x = (x - N) + 1 * N := by ring
  rw [this, Int.add_mul_ediv_right _ _ (by omega : N ≠ 0),
    Int.ediv_eq_zero_of_lt (by omega) (by omega)]
  omega

lemma getLastBang_mem (l : List Int) (h : l ≠ []) : l.getLast! ∈ l := by
  induction l with
  | nil => simp at h
  | cons a rest ih =>
    cases rest with
    | nil => simp [show ([a] : List Int).getLast! = a from rfl]
    | cons b t =>
      have h2 : (a :: b :: t).getLast! = (b :: t).getLast! := rfl
      rw [h2]
      exact List.mem_cons_of_mem a (ih (by simp))

lemma psum_dropLast (l : List Int) (h : l ≠ []) :
    psum l = psum l.dropLast + l.getLast! := by
  induction l with
  | nil => simp at h
  | cons a rest ih =>
    cases rest with
    | nil =>
      have h1 : ([a] : List Int).getLast! = a := rfl
      simp [psum_cons, psum, h1]
    | cons b t =>
      rw [psum_cons, ih (by simp)]
      have h1 : (a :: b :: t).dropLast = a :: (b :: t).dropLast := rfl
      have h2 : (a :: b :: t).getLast! = (b :: t).getLast! := rfl
      rw [h1, h2, psum_cons]
      ring

/-! ### Claim C2 helpers -/

/-- The 17 keys exercised by the repository's unit tests
(`utils_unittest.py` lines 148-166). -/
def catalogKeys : List String :=
  ["c", "d", "e", "f", "g", "a", "b", "c#", "d#", "f#", "g#", "a#",
   "db", "eb", "gb", "ab", "bb"]

/-- Closure check for one `keysignature.py` instance: the construction
succeeds and the stored scale's closing octave note equals its first
note. -/
def ksClosed (m k : String) : Bool :=
  match KS.init (MU.ModeArg.str m) k with
  | some st => pyGet st.scale (KS.get_mode_length st) == pyGet st.scale 0
  | none => false

/-! The catalog closure check, split by mode so that each kernel check
stays within a bounded memory footprint. -/

set_option maxRecDepth 10000 in
set_option maxHeartbeats 1000000 in
lemma ksClosedM0 : ∀ k ∈ catalogKeys, ksClosed "chromatic" k = true := by decide

set_option maxRecDepth 10000 in
set_option maxHeartbeats 1000000 in
lemma ksClosedM1 : ∀ k ∈ catalogKeys, ksClosed "algerian" k = true := by decide

set_option maxRecDepth 10000 in
set_option maxHeartbeats 1000000 in
lemma ksClosedM2 : ∀ k ∈ catalogKeys, ksClosed "diminished" k = true := by decide

set_option maxRecDepth 10000 in
set_option maxHeartbeats 1000000 in
lemma ksClosedM3 : ∀ k ∈ catalogKeys, ksClosed "spanish" k = true := by decide

set_option maxRecDepth 10000 in
set_option maxHeartbeats 1000000 in
lemma ksClosedM4 : ∀ k ∈ catalogKeys, ksClosed "octatonic" k = true := by decide

set_option maxRecDepth 10000 in
set_option maxHeartbeats 1000000 in
lemma ksClosedM5 : ∀ k ∈ catalogKeys, ksClosed "bebop" k = true := by decide

set_option maxRecDepth 10000 in
set_option maxHeartbeats 1000000 in
lemma ksClosedM6 : ∀ k ∈ catalogKeys, ksClosed "major" k = true := by decide

set_option maxRecDepth 10000 in
set_option maxHeartbeats 1000000 in
lemma ksClosedM7 : ∀ k ∈ catalogKeys, ksClosed "harmonic major" k = true := by decide

set_option maxRecDepth 10000 in
set_option maxHeartbeats 1000000 in
lemma ksClosedM8 : ∀ k ∈ catalogKeys, ksClosed "minor" k = true := by decide

set_option maxRecDepth 10000 in
set_option maxHeartbeats 1000000 in
lemma ksClosedM9 : ∀ k ∈ catalogKeys, ksClosed "natural minor" k = true := by decide

set_option maxRecDepth 10000 in
set_option maxHeartbeats 1000000 in
lemma ksClosedM10 : ∀ k ∈ catalogKeys, ksClosed "harmonic minor" k = true := by decide

set_option maxRecDepth 10000 in
set_option maxHeartbeats 1000000 in
lemma ksClosedM11 : ∀ k ∈ catalogKeys, ksClosed "melodic minor" k = true := by decide

set_option maxRecDepth 10000 in
set_option maxHeartbeats 1000000 in
lemma ksClosedM12 : ∀ k ∈ catalogKeys, ksClosed "ionian" k = true := by decide

set_option maxRecDepth 10000 in
set_option maxHeartbeats 1000000 in
lemma ksClosedM13 : ∀ k ∈ catalogKeys, ksClosed "dorian" k = true := by decide

set_option maxRecDepth 10000 in
set_option maxHeartbeats 1000000 in
lemma ksClosedM14 : ∀ k ∈ catalogKeys, ksClosed "phrygian" k = true := by decide

set_option maxRecDepth 10000 in
set_option maxHeartbeats 1000000 in
lemma ksClosedM15 : ∀ k ∈ catalogKeys, ksClosed "lydian" k = true := by decide

set_option maxRecDepth 10000 in
set_option maxHeartbeats 1000000 in
lemma ksClosedM16 : ∀ k ∈ catalogKeys, ksClosed "mixolydian" k = true := by decide

set_option maxRecDepth 10000 in
set_option maxHeartbeats 1000000 in
lemma ksClosedM17 : ∀ k ∈ catalogKeys, ksClosed "aeolian" k = true := by decide

set_option maxRecDepth 10000 in
set_option maxHeartbeats 1000000 in
lemma ksClosedM18 : ∀ k ∈ catalogKeys, ksClosed "locrian" k = true := by decide

set_option maxRecDepth 10000 in
set_option maxHeartbeats 1000000 in
lemma ksClosedM19 : ∀ k ∈ catalogKeys, ksClosed "jazz minor" k = true := by decide

set_option maxRecDepth 10000 in
set_option maxHeartbeats 1000000 in
lemma ksClosedM20 : ∀ k ∈ catalogKeys, ksClosed "arabic" k = true := by decide

set_option maxRecDepth 10000 in
set_option maxHeartbeats 1000000 in
lemma ksClosedM21 : ∀ k ∈ catalogKeys, ksClosed "byzantine" k = true := by decide

set_option maxRecDepth 10000 in
set_option maxHeartbeats 1000000 in
lemma ksClosedM22 : ∀ k ∈ catalogKeys, ksClosed "enigmatic" k = true := by decide

set_option maxRecDepth 10000 in
set_option maxHeartbeats 1000000 in
lemma ksClosedM23 : ∀ k ∈ catalogKeys, ksClosed "ethiopian" k = true := by decide

set_option maxRecDepth 10000 in
set_option maxHeartbeats 1000000 in
lemma ksClosedM24 : ∀ k ∈ catalogKeys, ksClosed "geez" k = true := by decide

set_option maxRecDepth 10000 in
set_option maxHeartbeats 1000000 in
lemma ksClosedM25 : ∀ k ∈ catalogKeys, ksClosed "hindu" k = true := by decide

set_option maxRecDepth 10000 in
set_option maxHeartbeats 1000000 in
lemma ksClosedM26 : ∀ k ∈ catalogKeys, ksClosed "hungarian" k = true := by decide

set_option maxRecDepth 10000 in
set_option maxHeartbeats 1000000 in
lemma ksClosedM27 : ∀ k ∈ catalogKeys, ksClosed "maqam" k = true := by decide

set_option maxRecDepth 10000 in
set_option maxHeartbeats 1000000 in
lemma ksClosedM28 : ∀ k ∈ catalogKeys, ksClosed "romanian minor" k = true := by decide

set_option maxRecDepth 10000 in
set_option maxHeartbeats 1000000 in
lemma ksClosedM29 : ∀ k ∈ catalogKeys, ksClosed "spanish gypsy" k = true := by decide

set_option maxRecDepth 10000 in
set_option maxHeartbeats 1000000 in
lemma ksClosedM30 : ∀ k ∈ catalogKeys, ksClosed "minor blues" k = true := by decide

set_option maxRecDepth 10000 in
set_option maxHeartbeats 1000000 in
lemma ksClosedM31 : ∀ k ∈ catalogKeys, ksClosed "major blues" k = true := by decide

set_option maxRecDepth 10000 in
set_option maxHeartbeats 1000000 in
lemma ksClosedM32 : ∀ k ∈ catalogKeys, ksClosed "whole tone" k = true := by decide

set_option maxRecDepth 10000 in
set_option maxHeartbeats 1000000 in
lemma ksClosedM33 : ∀ k ∈ catalogKeys, ksClosed "major pentatonic" k = true := by decide

set_option maxRecDepth 10000 in
set_option maxHeartbeats 1000000 in
lemma ksClosedM34 : ∀ k ∈ catalogKeys, ksClosed "minor pentatonic" k = true := by decide

set_option maxRecDepth 10000 in
set_option maxHeartbeats 1000000 in
lemma ksClosedM35 : ∀ k ∈ catalogKeys, ksClosed "chinese" k = true := by decide

set_option maxRecDepth 10000 in
set_option maxHeartbeats 1000000 in
lemma ksClosedM36 : ∀ k ∈ catalogKeys, ksClosed "egyptian" k = true := by decide

set_option maxRecDepth 10000 in
set_option maxHeartbeats 1000000 in
lemma ksClosedM37 : ∀ k ∈ catalogKeys, ksClosed "hirajoshi" k = true := by decide

set_option maxRecDepth 10000 in
set_option maxHeartbeats 1000000 in
lemma ksClosedM38 : ∀ k ∈ catalogKeys, ksClosed "in" k = true := by decide

set_option maxRecDepth 10000 in
set_option maxHeartbeats 1000000 in
lemma ksClosedM39 : ∀ k ∈ catalogKeys, ksClosed "minyo" k = true := by decide

set_option maxRecDepth 10000 in
set_option maxHeartbeats 1000000 in
lemma ksClosedM40 : ∀ k ∈ catalogKeys, ksClosed "fibonacci" k = true := by decide

lemma ksCatalogClosure : ∀ m ∈ MUSICAL_MODES.map Prod.fst, ∀ k ∈ catalogKeys,
    ksClosed m k = true := by
  have hmodes : MUSICAL_MODES.map Prod.fst =
      ["chromatic",
      "algerian",
      "diminished",
      "spanish",
      "octatonic",
      "bebop",
      "major",
      "harmonic major",
      "minor",
      "natural minor",
      "harmonic minor",
      "melodic minor",
      "ionian",
      "dorian",
      "phrygian",
      "lydian",
      "mixolydian",
      "aeolian",
      "locrian",
      "jazz minor",
      "arabic",
      "byzantine",
      "enigmatic",
      "ethiopian",
      "geez",
      "hindu",
      "hungarian",
      "maqam",
      "romanian minor",
      "spanish gypsy",
      "minor blues",
      "major blues",
      "whole tone",
      "major pentatonic",
      "minor pentatonic",
      "chinese",
      "egyptian",
      "hirajoshi",
      "in",
      "minyo",
      "fibonacci"] := rfl
  intro m hm
  rw [hmodes] at hm
  fin_cases hm
  · exact ksClosedM0
  · exact ksClosedM1
  · exact ksClosedM2
  · exact ksClosedM3
  · exact ksClosedM4
  · exact ksClosedM5
  · exact ksClosedM6
  · exact ksClosedM7
  · exact ksClosedM8
  · exact ksClosedM9
  · exact ksClosedM10
  · exact ksClosedM11
  · exact ksClosedM12
  · exact ksClosedM13
  · exact ksClosedM14
  · exact ksClosedM15
  · exact ksClosedM16
  · exact ksClosedM17
  · exact ksClosedM18
  · exact ksClosedM19
  · exact ksClosedM20
  · exact ksClosedM21
  · exact ksClosedM22
  · exact ksClosedM23
  · exact ksClosedM24
  · exact ksClosedM25
  · exact ksClosedM26
  · exact ksClosedM27
  · exact ksClosedM28
  · exact ksClosedM29
  · exact ksClosedM30
  · exact ksClosedM31
  · exact ksClosedM32
  · exact ksClosedM33
  · exact ksClosedM34
  · exact ksClosedM35
  · exact ksClosedM36
  · exact ksClosedM37
  · exact ksClosedM38
  · exact ksClosedM39
  · exact ksClosedM40

lemma setLast_closed (l : List String) :
    pyGet (MU.setLast l) ((MU.setLast l).length - 1) = pyGet (MU.setLast l) 0 := by
  cases l with
  | nil => rfl
  | cons a rest =>
    unfold MU.setLast pyGet
    simp only [List.headD_cons, List.length_cons, List.length_set, Nat.add_sub_cancel]
    rw [List.getD_eq_getElem _ _ (by simp), List.getD_eq_getElem _ _ (by simp)]
    rw [List.getElem_set, List.getElem_set]
    by_cases h : rest.length = 0
    · simp [h]
    · rw [if_pos rfl, if_neg (by omega)]
      simp

lemma optNoneBind {α β : Type} (f : α → Option β) :
    ((none : Option α) >>= f) = none := rfl

lemma optSomeBind {α β : Type} (a : α) (f : α → Option β) :
    ((some a : Option α) >>= f) = f a := rfl

lemma optBindSomeInv {α β : Type} (x : Option α) (f : α → Option β) (b : β)
    (h : (x >>= f) = some b) : ∃ a, x = some a ∧ f a = some b := by
  cases x with
  | none => exact Option.noConfusion h
  | some a => exact ⟨a, rfl, h⟩

lemma init_scale_setLast (m : MU.ModeArg) (k : String) (N : Nat) (st : MU.State)
    (h : MU.init m k N = some st) : ∃ l, st.scale = MU.setLast l := by
  unfold MU.init at h
  by_cases hN : N = 12
  · rw [if_pos hN] at h
    cases m with
    | str s =>
      cases hlk : lookup1 MUSICAL_MODES s with
      | none =>
        simp only [hlk, optNoneBind] at h
        exact Option.noConfusion h
      | some hs =>
        simp only [hlk, optSomeBind] at h
        obtain ⟨scale, hbs, hret⟩ := optBindSomeInv _ _ _ h
        simp only [Option.pure_def, Option.some.injEq] at hret
        unfold MU.build_scale at hbs
        rw [Option.map_eq_some'] at hbs
        obtain ⟨l, _, hl⟩ := hbs
        exact ⟨l, by rw [← hret]; exact hl.symm⟩
    | ints l0 =>
      simp only [optSomeBind] at h
      obtain ⟨scale, hbs, hret⟩ := optBindSomeInv _ _ _ h
      simp only [Option.pure_def, Option.some.injEq] at hret
      unfold MU.build_scale at hbs
      rw [Option.map_eq_some'] at hbs
      obtain ⟨l, _, hl⟩ := hbs
      exact ⟨l, by rw [← hret]; exact hl.symm⟩
  · rw [if_neg hN] at h
    obtain ⟨scale, hbs, hret⟩ := optBindSomeInv _ _ _ h
    simp only [Option.pure_def, Option.some.injEq] at hret
    unfold MU.build_scale at hbs
    rw [Option.map_eq_some'] at hbs
    obtain ⟨l, _, hl⟩ := hbs
    exact ⟨l, by rw [← hret]; exact hl.symm⟩

/-- The state `KeySignature(mode="major", key="c")` constructs in
`musicutils.py` (checked by `decide` in the claim theorems). -/
def cMajorState : MU.State :=
  { number_of_semitones := 12, mode := "major",
    half_steps := [2, 2, 1, 2, 2, 2, 1], key := "c", key_signature := "c major",
    note_names := makeNoteNames 12,
    scale := ["c", "d", "e", "f", "g", "a", "b", "c"] }

/-- A sample `keysignature.py` instance state (c major) for the C7
witness. -/
def sampleKSState : KS.State :=
  { mode := "major", half_steps := [2, 2, 1, 2, 2, 2, 1], key := "c",
    key_signature := "c major", number_of_semitones := 12,
    note_names := makeNoteNames 12,
    generic_scale := ["n0", "n2", "n4", "n5", "n7", "n9", "n11", "n0"],
    scale := ["c", "d", "e", "f", "g", "a", "b", "c"],
    custom_note_names := [] }

/-- Check used by the C3 theorem: `closest_note` succeeds with error
code `0` and its semitone distance equals the chromatic position of the
target minus the chromatic position of the returned scale degree
(positive above, negative below, zero on exact match). -/
def closestOffCheck (st : MU.State) (t : String) : Bool :=
  match MU.closest_note st t with
  | some (c, _, d, e) =>
    e == 0 &&
      (match MU.chromPosOf (normalize_pitch t), MU.chromPosOf c with
       | some pt, some pc => d == pt - pc
       | _, _ => false)
  | none => false

/-! ### Claim C9 helpers: the `scale.py` construction loop -/

lemma makeNoteNames_getD (k j : Nat) (h : j < k) :
    pyGet (makeNoteNames k) j = genericNoteName j := by
  unfold pyGet makeNoteNames
  rw [List.getD_eq_getElem _ _ (by simpa using h)]
  simp

lemma buildLoop_cons_spec (N : Int) (names : List String) (s : Int) (rest : List Int)
    (i oct : Int) (hi0 : 0 ≤ i) (hiN : i < N) (hs0 : 0 < s) (hsN : s ≤ N) :
    ScalePy.buildLoop N names (s :: rest) i oct =
      (pyIdx names ((i + s) % N) ::
        (ScalePy.buildLoop N names rest ((i + s) % N) (oct + (i + s) / N)).fst,
       (oct + (i + s) / N) ::
        (ScalePy.buildLoop N names rest ((i + s) % N) (oct + (i + s) / N)).snd) := by
  by_cases hw : i + s < N
  · have he : (i + s) % N = i + s := Int.emod_eq_of_lt (by omega) hw
    have hd : (i + s) / N = 0 := Int.ediv_eq_zero_of_lt (by omega) hw
    simp only [ScalePy.buildLoop, he, hd, hw, not_true_eq_false, if_false, add_zero]
  · have he : (i + s) % N = i + s - N := by
      have h1 : i + s = (i + s - N) + 1 * N := by ring
      rw [h1, Int.add_mul_emod_self, Int.emod_eq_of_lt (by omega) (by omega)]
      omega
    have hd : (i + s) / N = 1 := ediv_one_of_between N (i + s) (by omega) (by omega)
    simp only [ScalePy.buildLoop, he, hd, hw, not_false_eq_true, if_true]

lemma buildLoop_len (N : Int) (names : List String) :
    ∀ (steps : List Int) (i oct : Int), 0 ≤ i → i < N →
      (∀ s ∈ steps, 0 < s) → (∀ s ∈ steps, s ≤ N) →
      (ScalePy.buildLoop N names steps i oct).fst.length = steps.length ∧
      (ScalePy.buildLoop N names steps i oct).snd.length = steps.length := by
  intro steps
  induction steps with
  | nil => intro i oct _ _ _ _; exact ⟨rfl, rfl⟩
  | cons s rest ih =>
    intro i oct hi0 hiN hpos hle
    rw [buildLoop_cons_spec N names s rest i oct hi0 hiN
      (hpos s (List.mem_cons_self s rest)) (hle s (List.mem_cons_self s rest))]
    have hm0 : 0 ≤ (i + s) % N := Int.emod_nonneg _ (by omega)
    have hmN : (i + s) % N < N := Int.emod_lt_of_pos _ (by omega)
    have hrec := ih ((i + s) % N) (oct + (i + s) / N) hm0 hmN
      (fun t ht => hpos t (List.mem_cons_of_mem s ht))
      (fun t ht => hle t (List.mem_cons_of_mem s ht))
    simp only [List.length_cons]
    omega

lemma psum_take_succ (l : List Int) (k : Nat) (hk : k < l.length) :
    psum (l.take (k + 1)) = psum (l.take k) + l.getD k 0 := by
  rw [List.take_succ, psum_append, List.getElem?_eq_getElem hk]
  simp only [Option.toList_some]
  rw [List.getD_eq_getElem l 0 hk]
  simp [psum]

lemma buildLoop_spec (N : Int) (hN : 0 < N) :
    ∀ (steps : List Int) (i oct : Int), 0 ≤ i → i < N →
      (∀ s ∈ steps, 0 < s) → (∀ s ∈ steps, s ≤ N) →
      ∀ k, k < steps.length →
        (ScalePy.buildLoop N (makeNoteNames N.toNat) steps i oct).fst.getD k "" =
          genericNoteName ((i + psum (steps.take (k + 1))) % N).toNat ∧
        (ScalePy.buildLoop N (makeNoteNames N.toNat) steps i oct).snd.getD k 0 =
          oct + (i + psum (steps.take (k + 1))) / N := by
  intro steps
  induction steps with
  | nil => intro i oct _ _ _ _ k hk; simp at hk
  | cons s rest ih =>
    intro i oct hi0 hiN hpos hle k hk
    have hs0 : 0 < s := hpos s (List.mem_cons_self s rest)
    have hsN : s ≤ N := hle s (List.mem_cons_self s rest)
    rw [buildLoop_cons_spec N _ s rest i oct hi0 hiN hs0 hsN]
    have hm0 : 0 ≤ (i + s) % N := Int.emod_nonneg _ (by omega)
    have hmN : (i + s) % N < N := Int.emod_lt_of_pos _ hN
    cases k with
    | zero =>
      constructor
      · show pyIdx (makeNoteNames N.toNat) ((i + s) % N) =
          genericNoteName ((i + psum ((s :: rest).take 1)) % N).toNat
        have htake : (s :: rest).take 1 = [s] := rfl
        rw [htake]
        have hps : psum [s] = s := by simp [psum]
        rw [hps]
        unfold pyIdx
        rw [if_neg (by omega)]
        exact makeNoteNames_getD N.toNat ((i + s) % N).toNat (by omega)
      · show oct + (i + s) / N = oct + (i + psum ((s :: rest).take 1)) / N
        have htake : (s :: rest).take 1 = [s] := rfl
        rw [htake]
        have hps : psum [s] = s := by simp [psum]
        rw [hps]
    | succ k =>
      have hk' : k < rest.length := by simpa using hk
      have hrec := ih ((i + s) % N) (oct + (i + s) / N) hm0 hmN
        (fun t ht => hpos t (List.mem_cons_of_mem s ht))
        (fun t ht => hle t (List.mem_cons_of_mem s ht)) k hk'
      have htake : (s :: rest).take (k + 2) = s :: rest.take (k + 1) := rfl
      constructor
      · show (ScalePy.buildLoop N (makeNoteNames N.toNat) rest ((i + s) % N)
            (oct + (i + s) / N)).fst.getD k "" = _
        rw [hrec.1, htake, psum_cons]
        congr 2
        rw [emod_shift, ← add_assoc]
      · show (ScalePy.buildLoop N (makeNoteNames N.toNat) rest ((i + s) % N)
            (oct + (i + s) / N)).snd.getD k 0 = _
        rw [hrec.2, htake, psum_cons, add_assoc,
          ← ediv_shift N (i + s) (psum (rest.take (k + 1))) (by omega)]
        have harr : i + s + psum (rest.take (k + 1)) =
            i + (s + psum (rest.take (k + 1))) := by ring
        rw [harr]

lemma psum_pos (l : List Int) (hne : l ≠ []) (h : ∀ s ∈ l, 0 < s) : 0 < psum l := by
  cases l with
  | nil => simp at hne
  | cons a rest =>
    rw [psum_cons]
    have h1 := psum_nonneg rest (fun t ht => h t (List.mem_cons_of_mem a ht))
    have h2 := h a (List.mem_cons_self a rest)
    omega

lemma ediv_step (P A s : Int) (hP : 0 < P) (hA : 0 ≤ A) (hs0 : 0 < s) (hsP : s ≤ P) :
    (A + s) / P = A / P + (if P ≤ A % P + s then 1 else 0) := by
  rw [ediv_shift P A s (by omega)]
  congr 1
  have h0 : 0 ≤ A % P := Int.emod_nonneg _ (by omega)
  have h1 : A % P < P := Int.emod_lt_of_pos _ hP
  by_cases hc : P ≤ A % P + s
  · rw [if_pos hc]
    exact ediv_one_of_between P _ hc (by omega)
  · rw [if_neg hc]
    exact Int.ediv_eq_zero_of_lt (by omega) (by omega)

lemma makeNoteNames_len (k : Nat) : (makeNoteNames k).length = k := by
  simp [makeNoteNames]

lemma init_some_scale (pattern : List Int) (offset : Int) (ns : Nat) :
    (ScalePy.init (some pattern) offset ns).scale =
      pyIdx (makeNoteNames (psum pattern).toNat)
          (offset.emod ((makeNoteNames (psum pattern).toNat).length : Int)) ::
        (ScalePy.buildLoop (psum pattern) (makeNoteNames (psum pattern).toNat) pattern
          (offset.emod ((makeNoteNames (psum pattern).toNat).length : Int)) 0).fst := rfl

lemma init_some_deltas (pattern : List Int) (offset : Int) (ns : Nat) :
    (ScalePy.init (some pattern) offset ns).octave_deltas =
      0 :: (ScalePy.buildLoop (psum pattern) (makeNoteNames (psum pattern).toNat) pattern
          (offset.emod ((makeNoteNames (psum pattern).toNat).length : Int)) 0).snd := rfl

end MusicBlocks

/-! ## Claim theorems -/

namespace MusicBlocks

/-- C5: for every pitch the engine recognizes as a plain letter name,
solfege, East Indian solfege, scalar mode number or plain generic note
name (the entries of `recognizedPlain`), and every integer half-step
count `n`, applying `KS.semitone_transform` by `n` and then applying it
to the resulting pitch by `-n` yields a pitch whose generic note name
(via `KS.convert_to_generic_note_name`) equals the generic note name of
the original pitch.  This is the claim amended to exclude generic note
names carrying an accidental suffix (such as `"n3#"`), which are also
recognized but do not satisfy the property. -/
theorem C5_semitone_round_trip : ∀ p ∈ recognizedPlain, ∀ n : Int,
    ksRoundTrip p n = some ((KS.convert_to_generic_note_name p).fst) := by
  intro p hp n
  unfold recognizedPlain at hp
  simp only [List.mem_append] at hp
  rcases hp with ((((((((h|h)|h)|h)|h)|h)|h)|h)|h)|h
  · exact rt_mem_table p NOTES_SHARP (by simp [famTables]) h n
  · exact rt_mem_table p NOTES_FLAT (by simp [famTables]) h n
  · simp only [List.mem_cons, List.not_mem_nil, or_false] at h
    rcases h with rfl|rfl|rfl|rfl
    · exact rt_special "e#" NOTES_SHARP 5 (by decide) (by simp [famTables]) (by omega) n
    · exact rt_special "b#" NOTES_SHARP 0 (by decide) (by simp [famTables]) (by omega) n
    · exact rt_special "cb" NOTES_FLAT 11 (by decide) (by simp [famTables]) (by omega) n
    · exact rt_special "fb" NOTES_FLAT 4 (by decide) (by simp [famTables]) (by omega) n
  · exact rt_mem_table p KS.SOLFEGE_SHARP (by simp [famTables]) h n
  · exact rt_mem_table p KS.SOLFEGE_FLAT (by simp [famTables]) h n
  · exact rt_mem_table p KS.EAST_INDIAN_SHARP (by simp [famTables]) h n
  · exact rt_mem_table p KS.EAST_INDIAN_FLAT (by simp [famTables]) h n
  · exact rt_mem_table p KS.SCALAR_NAMES_SHARP (by simp [famTables]) h n
  · exact rt_mem_table p KS.SCALAR_NAMES_FLAT (by simp [famTables]) h n
  · exact rt_mem_table p (makeNoteNames 12) (by simp [famTables, noteNames12]) h n

/-- C5: witness: the round-trip theorem applied to the solfege pitch
`"sol"` with `n = 7`. -/
theorem C5_semitone_round_trip_witness :
    ksRoundTrip "sol" 7 = some ((KS.convert_to_generic_note_name "sol").fst) :=
  C5_semitone_round_trip "sol" (by decide) 7

/-- C5: counterexample to the claim as stated: `"n3#"` is recognized by the
engine (`KS.get_pitch_type` classifies it as a generic note name), but the
round trip by `+1` and `-1` half steps lands on `"n4"`, while
`KS.convert_to_generic_note_name` maps `"n3#"` to itself, so the round trip
does not return the original pitch's generic note name. -/
theorem C5_round_trip_counterexample :
    KS.get_pitch_type [] "n3#" = KS.GENERIC_NOTE_NAME ∧
    ksRoundTrip "n3#" 1 = some "n4" ∧
    (KS.convert_to_generic_note_name "n3#").fst = "n3#" :=
  ⟨by decide, by decide, by decide⟩


/-- C9: for every half-step pattern of positive integers (total `N`,
computed by the constructor as the pattern sum) and every starting
offset, `scale.py` `Scale.__init__` produces exactly
`pattern.length + 1` scale entries and as many octave deltas; entry `k`
is the generic note name of index
`((offset mod N) + sum of the first k steps) mod N`; the octave-delta
sequence equals the Euclidean quotient `((offset mod N) + partial sum) / N`
at every position, and it increases by one exactly at each step whose
advance wraps the running index past `N`. -/
theorem C9_scale_construction (pattern : List Int) (offset : Int)
    (hne : pattern ≠ []) (hpos : ∀ s ∈ pattern, 0 < s) :
    (ScalePy.init (some pattern) offset 12).scale.length = pattern.length + 1 ∧
    (ScalePy.init (some pattern) offset 12).octave_deltas.length = pattern.length + 1 ∧
    (∀ k, k ≤ pattern.length →
      (ScalePy.init (some pattern) offset 12).scale.getD k "" =
        genericNoteName
          ((offset % psum pattern + psum (pattern.take k)) % psum pattern).toNat) ∧
    (∀ k, k ≤ pattern.length →
      (ScalePy.init (some pattern) offset 12).octave_deltas.getD k 0 =
        (offset % psum pattern + psum (pattern.take k)) / psum pattern) ∧
    (∀ k, k < pattern.length →
      (ScalePy.init (some pattern) offset 12).octave_deltas.getD (k + 1) 0 =
        (ScalePy.init (some pattern) offset 12).octave_deltas.getD k 0 +
          (if psum pattern ≤
              (offset % psum pattern + psum (pattern.take k)) % psum pattern
                + pattern.getD k 0
            then 1 else 0)) := by
  have hN : 0 < psum pattern := psum_pos pattern hne hpos
  have hle : ∀ s ∈ pattern, s ≤ psum pattern := le_psum pattern hpos
  have hlen : ((makeNoteNames (psum pattern).toNat).length : Int) = psum pattern := by
    rw [makeNoteNames_len, Int.toNat_of_nonneg (by omega)]
  have hi0 : offset.emod ((makeNoteNames (psum pattern).toNat).length : Int) =
      offset % psum pattern := by
    rw [hlen]
    rfl
  have hi0lo : 0 ≤ offset % psum pattern := Int.emod_nonneg _ (by omega)
  have hi0hi : offset % psum pattern < psum pattern := Int.emod_lt_of_pos _ hN
  have hbl := buildLoop_len (psum pattern) (makeNoteNames (psum pattern).toNat)
    pattern (offset % psum pattern) 0 hi0lo hi0hi hpos hle
  have hspec := buildLoop_spec (psum pattern) hN pattern (offset % psum pattern) 0
    hi0lo hi0hi hpos hle
  -- the closed form of every octave delta
  have hdelta : ∀ k, k ≤ pattern.length →
      (ScalePy.init (some pattern) offset 12).octave_deltas.getD k 0 =
        (offset % psum pattern + psum (pattern.take k)) / psum pattern := by
    intro k hk
    rw [init_some_deltas, hi0]
    cases k with
    | zero =>
      show (0 : Int) = (offset % psum pattern + psum []) / psum pattern
      have h0 : psum [] = 0 := rfl
      rw [h0, add_zero, Int.ediv_eq_zero_of_lt hi0lo hi0hi]
    | succ k =>
      show (ScalePy.buildLoop (psum pattern) (makeNoteNames (psum pattern).toNat) pattern
          (offset % psum pattern) 0).snd.getD k 0 = _
      rw [(hspec k (by omega)).2, zero_add]
  refine ⟨?_, ?_, ?_, hdelta, ?_⟩
  · rw [init_some_scale, hi0]
    simp only [List.length_cons]
    omega
  · rw [init_some_deltas, hi0]
    simp only [List.length_cons]
    omega
  · intro k hk
    rw [init_some_scale, hi0]
    cases k with
    | zero =>
      show pyIdx (makeNoteNames (psum pattern).toNat) (offset % psum pattern) = _
      have h0 : psum (pattern.take 0) = 0 := rfl
      rw [h0, add_zero]
      have hmm : (offset % psum pattern) % psum pattern = offset % psum pattern :=
        Int.emod_eq_of_lt hi0lo hi0hi
      rw [hmm]
      unfold pyIdx
      rw [if_neg (by omega)]
      exact makeNoteNames_getD (psum pattern).toNat (offset % psum pattern).toNat (by omega)
    | succ k =>
      show (ScalePy.buildLoop (psum pattern) (makeNoteNames (psum pattern).toNat) pattern
          (offset % psum pattern) 0).fst.getD k "" = _
      exact (hspec k (by omega)).1
  · intro k hk
    rw [hdelta (k + 1) (by omega), hdelta k (by omega),
      psum_take_succ pattern k hk, ← add_assoc]
    have hA0 : 0 ≤ offset % psum pattern + psum (pattern.take k) := by
      have := psum_nonneg (pattern.take k)
        (fun t ht => hpos t (List.mem_of_mem_take ht))
      omega
    have hks : pattern.getD k 0 ∈ pattern := by
      rw [List.getD_eq_getElem pattern 0 hk]
      exact List.getElem_mem hk
    exact ediv_step (psum pattern) (offset % psum pattern + psum (pattern.take k))
      (pattern.getD k 0) hN hA0 (hpos _ hks) (hle _ hks)

/-- C9: witness: the construction length property at the major-scale
pattern `[2, 2, 1, 2, 2, 2, 1]` and offset `0`. -/
theorem C9_scale_construction_witness :
    (ScalePy.init (some [2, 2, 1, 2, 2, 2, 1]) 0 12).scale.length =
      ([2, 2, 1, 2, 2, 2, 1] : List Int).length + 1 :=
  (C9_scale_construction [2, 2, 1, 2, 2, 2, 1] 0 (by decide) (by decide)).1

/-- C6: after construction with a custom integer-list mode, the stored
half-step pattern contains only entries `≥ 1` and has length between 1
and 12 (the validation block of `musicutils.py` lines 842-864, 12-semitone
branch); its sum is exactly 12 except when the final-entry adjustment
would be non-positive and the entry is dropped, in which case the sum
exceeds 12 and the length is one less than the clamped input length.
This amends the claim, whose "sums exactly to numberOfSemitones" fails
on the dropped-entry path. -/
theorem C6_custom_mode_validation : ∀ m : List Int,
    (∀ s ∈ MU.validateCustomMode m, 1 ≤ s) ∧
    1 ≤ (MU.validateCustomMode m).length ∧
    (MU.validateCustomMode m).length ≤ 12 ∧
    (psum (MU.validateCustomMode m) = 12 ∨
      (12 < psum (MU.validateCustomMode m) ∧
        (MU.validateCustomMode m).length + 1 =
          (if 12 < m.length ∨ m.length < 1 then 12 else m.length))) := by
  intro m
  set m1 := if m.length > 12 then (lookup1 MUSICAL_MODES "chromatic").getD []
    else if m.length < 1 then (lookup1 MUSICAL_MODES "chromatic").getD []
    else m with hm1
  have hm1len : 1 ≤ m1.length ∧ m1.length ≤ 12 := by
    rw [hm1]
    split_ifs with h1 h2
    · exact ⟨by decide, by decide⟩
    · exact ⟨by decide, by decide⟩
    · omega
  have hm1if : m1.length = (if 12 < m.length ∨ m.length < 1 then 12 else m.length) := by
    rw [hm1]
    split_ifs with h1 h2 h3 h3 <;> first | rfl | omega
  set m2 := m1.map (fun s => if s < 1 then (1 : Int) else s) with hm2
  have hm2len : m2.length = m1.length := by rw [hm2]; simp
  have hm2pos : ∀ s ∈ m2, 1 ≤ s := by
    rw [hm2]
    intro s hs
    obtain ⟨t, _, rfl⟩ := List.mem_map.mp hs
    split_ifs <;> omega
  have hm2ne : m2 ≠ [] := by
    intro hc
    have hz : m2.length = 0 := by rw [hc]; rfl
    omega
  have hval : MU.validateCustomMode m =
      (if psum m2 < 12 then m2.dropLast ++ [m2.getLast! + (12 - psum m2)]
       else if psum m2 > 12 then
         (if m2.getLast! - (psum m2 - 12) < 1 then m2.dropLast
          else m2.dropLast ++ [m2.getLast! - (psum m2 - 12)])
       else m2) := by
    rw [hm2, hm1]
    rfl
  have hlast := getLastBang_mem m2 hm2ne
  have hlast1 : 1 ≤ m2.getLast! := hm2pos _ hlast
  have hdropsum := psum_dropLast m2 hm2ne
  have hdlen : m2.dropLast.length = m2.length - 1 := by simp
  rw [hval]
  by_cases hlt : psum m2 < 12
  · rw [if_pos hlt]
    refine ⟨?_, ?_, ?_, Or.inl ?_⟩
    · intro s hs
      rcases List.mem_append.mp hs with hs | hs
      · exact hm2pos s (List.mem_of_mem_dropLast hs)
      · simp only [List.mem_singleton] at hs
        omega
    · rw [List.length_append, hdlen]
      simp only [List.length_singleton]
      omega
    · rw [List.length_append, hdlen]
      simp only [List.length_singleton]
      omega
    · rw [psum_append]
      have hone : psum [m2.getLast! + (12 - psum m2)] = m2.getLast! + (12 - psum m2) := by
        simp [psum]
      rw [hone]
      omega
  · rw [if_neg hlt]
    by_cases hgt : psum m2 > 12
    · rw [if_pos hgt]
      by_cases hdc : m2.getLast! - (psum m2 - 12) < 1
      · rw [if_pos hdc]
        have hlen2 : 2 ≤ m2.length := by
          by_contra hc
          push_neg at hc
          have hne0 : m2.length ≠ 0 := by
            intro hz
            exact hm2ne (List.length_eq_zero.mp hz)
          have h1 : m2.length = 1 := by omega
          obtain ⟨a, ha⟩ := List.length_eq_one.mp h1
          rw [ha] at hdc hgt
          have hpa : psum [a] = a := by simp [psum]
          have hga : ([a] : List Int).getLast! = a := rfl
          rw [hga, hpa] at hdc
          rw [hpa] at hgt
          omega
        refine ⟨?_, ?_, ?_, ?_⟩
        · intro s hs
          exact hm2pos s (List.mem_of_mem_dropLast hs)
        · rw [hdlen]; omega
        · rw [hdlen]; omega
        · by_cases hs12 : psum m2.dropLast = 12
          · exact Or.inl hs12
          · refine Or.inr ⟨by omega, ?_⟩
            rw [hdlen, ← hm1if]
            omega
      · rw [if_neg hdc]
        refine ⟨?_, ?_, ?_, Or.inl ?_⟩
        · intro s hs
          rcases List.mem_append.mp hs with hs | hs
          · exact hm2pos s (List.mem_of_mem_dropLast hs)
          · simp only [List.mem_singleton] at hs
            omega
        · rw [List.length_append, hdlen]
          simp only [List.length_singleton]
          omega
        · rw [List.length_append, hdlen]
          simp only [List.length_singleton]
          omega
        · rw [psum_append]
          have hone : psum [m2.getLast! - (psum m2 - 12)] =
              m2.getLast! - (psum m2 - 12) := by
            simp [psum]
          rw [hone]
          omega
    · rw [if_neg hgt]
      exact ⟨hm2pos, by omega, by omega, Or.inl (by omega)⟩

/-- C6: counterexample to the claim as stated: the custom mode
`[13, 5]` is stored as `[13]` (total 18 exceeds 12; adjusting the final
entry to `5 - 6 = -1` would be non-positive, so it is dropped), and the
stored pattern sums to 13, not 12. -/
theorem C6_custom_mode_counterexample :
    (MU.init (MU.ModeArg.ints [13, 5]) "c" 12).map (fun st => st.half_steps) =
      some [13] ∧
    psum [13] ≠ 12 :=
  ⟨by decide, by decide⟩

/-- C1: the no-shared-base-letter invariant fails in both sources.  In
`keysignature.py`, `KeySignature("fibonacci", "c")` (mode length 5, at
most 7) stores the scale `["c", "c#", "d", "e", "g"]`, whose first two
entries share the base letter `c`.  In `musicutils.py`,
`KeySignature(mode="harmonic minor", key="ab")` (mode length 7) stores
`["ab", "bb", "cb", "db", "eb", "fb", "fx"]`, whose last two entries
share the base letter `f`. -/
theorem C1_letter_collision :
    (KS.init (MU.ModeArg.str "fibonacci") "c").map KS.get_scale =
      some ["c", "c#", "d", "e", "g"] ∧
    (KS.init (MU.ModeArg.str "fibonacci") "c").map KS.get_mode_length = some 5 ∧
    pyHead "c" = pyHead "c#" ∧
    (MU.init (MU.ModeArg.str "harmonic minor") "ab" 12).map MU.get_scale =
      some ["ab", "bb", "cb", "db", "eb", "fb", "fx"] ∧
    (MU.init (MU.ModeArg.str "harmonic minor") "ab" 12).map MU.get_mode_length =
      some 7 ∧
    pyHead "fb" = pyHead "fx" :=
  ⟨by decide, by decide, rfl, by decide, by decide, rfl⟩

/-- C2: the octave-closure invariant holds in `musicutils.py` but is
violated by `keysignature.py`.  Every successfully constructed
`musicutils.py` instance satisfies `scale[modeLength] == scale[0]`
(both `_build_scale` branches end with
`self.scale[-1] = self.scale[0]`), and in `keysignature.py` the same
closure holds over every catalog mode combined with the 17 keys the
unit tests exercise; but `keysignature.py` instances built from custom
half-step lists can break it: `KeySignature([1, 1, 1, 2, 2, 2, 3], "c")`
stores `["c", "c#", "d", "d#", "f", "g", "a", "b#"]` (the Latin
no-skip pass rewrites the closing octave note to `"b#"` and nothing
restores it), and `KeySignature([12], "e")` stores `["e", "fb"]` (the
repeated-letter pass rewrites the closing note), so the last entry no
longer equals the first. -/
theorem C2_closure_violation :
    (∀ (m : MU.ModeArg) (k : String) (N : Nat) (st : MU.State),
        MU.init m k N = some st →
        pyGet st.scale (MU.get_mode_length st) = pyGet st.scale 0) ∧
    (∀ m ∈ MUSICAL_MODES.map Prod.fst, ∀ k ∈ catalogKeys, ksClosed m k = true) ∧
    ((KS.init (MU.ModeArg.ints [1, 1, 1, 2, 2, 2, 3]) "c").map (fun st => st.scale) =
      some ["c", "c#", "d", "d#", "f", "g", "a", "b#"]) ∧
    ((KS.init (MU.ModeArg.ints [1, 1, 1, 2, 2, 2, 3]) "c").map
        (fun st => pyGet st.scale (KS.get_mode_length st) == pyGet st.scale 0) =
      some false) ∧
    ((KS.init (MU.ModeArg.ints [12]) "e").map (fun st => st.scale) =
      some ["e", "fb"]) ∧
    ((KS.init (MU.ModeArg.ints [12]) "e").map
        (fun st => pyGet st.scale (KS.get_mode_length st) == pyGet st.scale 0) =
      some false) := by
  refine ⟨?_, ksCatalogClosure, by decide, by decide, by decide, by decide⟩
  intro m k N st h
  obtain ⟨l, hl⟩ := init_scale_setLast m k N st h
  unfold MU.get_mode_length
  rw [hl]
  exact setLast_closed l

/-- C3: the two sources disagree with the claim and with each other.
On `musicutils.py` `KeySignature(mode="major", key="c")`,
`closest_note("c")` returns `("c", 0, 0, 0)` and `closest_note("f#")`
returns `("f", 3, 1, 0)` -- the second component is the scale index of
the returned degree, not 0 as claimed -- and for every letter-name
target the distance equals the chromatic position of the target minus
that of the returned degree (positive above, negative below, zero on
exact match).  On `keysignature.py`, `closest_note("f#")` instead
returns `("f", 3, -1, 0)`: its upward search iterates `i` over
`range(get_mode_length())` while skipping every `i < ti + 1`, so for a
target above the last scale-degree index it finds nothing and the
downward search wins with a negative distance although the target lies
above the returned degree, contradicting the claimed (and the
function's own documented) sign convention. -/
theorem C3_closest_note_divergence :
    MU.init (MU.ModeArg.str "major") "c" 12 = some cMajorState ∧
    MU.closest_note cMajorState "c" = some ("c", 0, 0, 0) ∧
    MU.closest_note cMajorState "f#" = some ("f", 3, 1, 0) ∧
    (NOTES_SHARP ++ NOTES_FLAT ++ ["e#", "b#", "cb", "fb"]).all
      (closestOffCheck cMajorState) = true ∧
    ((KS.init (MU.ModeArg.str "major") "c").bind
      (fun st => KS.closest_note st "f#")) = some ("f", 3, -1, 0) ∧
    ((KS.init (MU.ModeArg.str "major") "c").bind
      (fun st => KS.closest_note st "c")) = some ("c", 0, 0, 0) :=
  ⟨by decide, by decide, by decide, by decide, by decide, by decide⟩

/-- C4: `semitone_transform("b", 1)` on a major-c instance returns
`("c", 1, 0)` and `semitone_transform("n0", -1)` on a 12-semitone
chromatic instance returns `("n11", -1, 0)`, in both sources
(`keysignature.py` computes these transforms from the pitch alone). -/
theorem C4_semitone_transform_examples :
    (MU.init (MU.ModeArg.str "major") "c" 12).map
      (fun st => MU.semitone_transform st "b" 1) = some ("c", 1, 0) ∧
    (MU.init (MU.ModeArg.str "chromatic") "c" 12).map
      (fun st => MU.semitone_transform st "n0" (-1)) = some ("n11", -1, 0) ∧
    KS.semitone_transform "b" 1 = some ("c", 1, 0) ∧
    KS.semitone_transform "n0" (-1) = some ("n11", -1, 0) :=
  ⟨by decide, by decide, by decide, by decide⟩

/-- C7: `set_custom_note_names` on any instance state: a list whose
length differs from the mode length is rejected with error code `-1`
and the stored names are unchanged; a list of exactly the mode length
is stored verbatim with return value `0`. -/
theorem C7_set_custom_note_names : ∀ (st : KS.State) (names : List String),
    (names.length ≠ KS.get_mode_length st →
      KS.set_custom_note_names st names = (-1, st)) ∧
    (names.length = KS.get_mode_length st →
      KS.set_custom_note_names st names =
        (0, { st with custom_note_names := names })) := by
  intro st names
  unfold KS.set_custom_note_names
  constructor
  · intro h
    rw [if_pos h]
  · intro h
    rw [if_neg (by simp [h])]

/-- C7: witness: a two-entry list is rejected by the c-major sample
instance (mode length 7), leaving the state unchanged. -/
theorem C7_set_custom_note_names_witness :
    KS.set_custom_note_names sampleKSState ["x", "y"] = (-1, sampleKSState) :=
  (C7_set_custom_note_names sampleKSState ["x", "y"]).1 (by decide)

/-- C8: totality fails in both respects: on the major-c instance,
`closest_note` applied to the unclassifiable pitch `"zzz"` raises
`KeyError` (modelled as `none`) instead of returning an error tuple,
and `scalar_transform("c", 2)` returns a bare 2-tuple
`("e", 0)` rather than a `(pitch, octaveDelta, errorCode)` triple. -/
theorem C8_totality_failures :
    (MU.init (MU.ModeArg.str "major") "c" 12).bind
      (fun st => MU.closest_note st "zzz") = none ∧
    (MU.init (MU.ModeArg.str "major") "c" 12).bind
      (fun st => MU.scalar_transform st "c" 2) = some (MU.PyRet.pair "e" 0) :=
  ⟨by decide, by decide⟩

/-- C10: constructing `keysignature.py` `Scale` objects with identical
arguments does not always give identical results: with the shared
mutable default for `half_steps_pattern`, a first construction with 12
semitones mutates the default, and a later construction passing 24
semitones (same arguments as a fresh 24-semitone construction) still
produces 12 semitones. -/
theorem C10_shared_default_divergence :
    (KSScale.init [] none 0 12).fst.number_of_semitones = 12 ∧
    (KSScale.init [] none 0 24).fst.number_of_semitones = 24 ∧
    (KSScale.init (KSScale.init [] none 0 12).snd none 0 24).fst.number_of_semitones
      = 12 ∧
    (KSScale.init (KSScale.init [] none 0 12).snd none 0 24).fst ≠
      (KSScale.init [] none 0 24).fst :=
  ⟨by decide, by decide, by decide, by decide⟩

end MusicBlocks
